import Mathlib

/-!
# EMD codec of tomviz (`tomviz/EmdFormat.cxx`)

A shallow embedding of `EmdFormat::Private` and `EmdFormat::read` / `EmdFormat::write`.

The functions of `EmdFormat.cxx` are translated statement by statement into functions that
pass an explicit `World` around.  The `World` holds what the C++ code reaches through the
HDF5 C library: the container files, the table of open identifiers, and the member
`EmdFormat::Private::fileId`.  The HDF5 and VTK calls the source makes are library code; each
one is given an executable model below, named as in the library.

Conventions of the model:
* identifiers (`hid_t`) and status codes (`herr_t`, `htri_t`) are integers, negative meaning
  failure, exactly as the source tests them;
* every HDF5 call that touches a file or allocates an identifier consults the oracle
  `World.fail` at the current call counter `World.tick`, so that any single call can be made to
  report an I/O failure;
* byte buffers are lists of naturals (one entry per byte); a read or write past the end of a
  buffer raises the flag `World.ub`.
-/

namespace tomviz

/-! ## Identifiers, types and containers -/

abbrev hid_t := Int
abbrev herr_t := Int
abbrev htri_t := Int
abbrev hsize_t := Nat

/-- Invalid identifier of the HDF5 library. -/
def H5I_INVALID_HID : hid_t := -1

/-- Default property list. -/
def H5P_DEFAULT : hid_t := 0

/-- Size value that marks a variable-length string type. -/
def H5T_VARIABLE : Nat := 2 ^ 64 - 1

/-- Datatype classes of the model. -/
inductive TClass where
  | float
  | uint
  | sint
  | string
deriving DecidableEq, Repr

/-- Datatype descriptor: class, size in bytes, byte order. -/
structure DType where
  cls : TClass
  size : Nat
  bigEndian : Bool
deriving DecidableEq, Repr

def H5T_IEEE_F32LE : hid_t := 1
def H5T_STD_U32LE : hid_t := 2
def H5T_STD_U16LE : hid_t := 3
def H5T_STD_U8LE : hid_t := 4
def H5T_NATIVE_FLOAT : hid_t := 5
def H5T_NATIVE_UINT : hid_t := 6
def H5T_NATIVE_USHORT : hid_t := 7
def H5T_NATIVE_UCHAR : hid_t := 8
def H5T_NATIVE_INT : hid_t := 9
def H5T_C_S1 : hid_t := 10

/-- Descriptor of a predefined datatype identifier; the native types follow the byte order of
the host. -/
def predefType (hostBE : Bool) (id : hid_t) : Option DType :=
  if id = H5T_IEEE_F32LE then some ⟨.float, 4, false⟩
  else if id = H5T_STD_U32LE then some ⟨.uint, 4, false⟩
  else if id = H5T_STD_U16LE then some ⟨.uint, 2, false⟩
  else if id = H5T_STD_U8LE then some ⟨.uint, 1, false⟩
  else if id = H5T_NATIVE_FLOAT then some ⟨.float, 4, hostBE⟩
  else if id = H5T_NATIVE_UINT then some ⟨.uint, 4, hostBE⟩
  else if id = H5T_NATIVE_USHORT then some ⟨.uint, 2, hostBE⟩
  else if id = H5T_NATIVE_UCHAR then some ⟨.uint, 1, hostBE⟩
  else if id = H5T_NATIVE_INT then some ⟨.sint, 4, hostBE⟩
  else if id = H5T_C_S1 then some ⟨.string, 1, false⟩
  else none

/-- Object kinds reported by `H5Oget_info_by_name`. -/
inductive H5O_type_t where
  | H5O_TYPE_GROUP
  | H5O_TYPE_DATASET
deriving DecidableEq, Repr

/-- Object stored in a container: a group, or a dataset with its on-disk type, its extents and
its raw bytes. -/
inductive Obj where
  | group
  | dataset (ty : DType) (dims : List hsize_t) (raw : List Nat)
deriving DecidableEq, Repr

/-- Attribute stored on an object. -/
structure Attr where
  ty : DType
  dims : List hsize_t
  raw : List Nat
deriving DecidableEq, Repr

/-- Container file: objects by absolute path, attributes by (object path, attribute name).
A key has one entry. -/
structure H5File where
  objs : List (String × Obj)
  attrs : List ((String × String) × Attr)
deriving DecidableEq, Repr

/-- Open identifier of the library. -/
inductive Handle where
  | file (fname : String)
  | group (fname path : String)
  | dataset (fname path : String)
  | attr (fname path aname : String)
  | space (dims : List hsize_t)
  | dtype (t : DType)
deriving DecidableEq, Repr

/-- State reached through the library, together with `EmdFormat::Private::fileId`. -/
structure World where
  files : List (String × H5File)
  handles : List (Nat × Handle)
  next : Nat
  tick : Nat
  fail : Nat → Bool
  hostBE : Bool
  ub : Bool
  fileId : hid_t

/-- State of a process that has opened nothing yet; `Private() : fileId(H5I_INVALID_HID)`. -/
def World.init (files : List (String × H5File)) (fail : Nat → Bool) (hostBE : Bool) : World :=
  { files := files, handles := [], next := 0, tick := 0, fail := fail, hostBE := hostBE,
    ub := false, fileId := H5I_INVALID_HID }

/-! ## Association lists -/

/-- First value stored under a key. -/
def assoc {α β : Type} [DecidableEq α] (k : α) : List (α × β) → Option β
  | [] => none
  | (k', v) :: rest => if k = k' then some v else assoc k rest

/-- Remove the first entry stored under a key. -/
def unassoc {α β : Type} [DecidableEq α] (k : α) : List (α × β) → List (α × β)
  | [] => []
  | (k', v) :: rest => if k = k' then rest else (k', v) :: unassoc k rest

/-- Replace the value of the first entry stored under a key. -/
def reassoc {α β : Type} [DecidableEq α] (k : α) (v : β) : List (α × β) → List (α × β)
  | [] => []
  | (k', v') :: rest => if k = k' then (k, v) :: rest else (k', v') :: reassoc k v rest

/-- Store a value under a key, in place of the first entry of that key if there is one. -/
def upsert {α β : Type} [DecidableEq α] (k : α) (v : β) (l : List (α × β)) : List (α × β) :=
  (k, v) :: unassoc k l

/-! ## Paths -/

/-- Absolute path of `name` seen from the object at `base`. -/
def joinPath (base name : String) : String :=
  if name.data.head? = some '/' then name
  else if base = "/" then String.mk ('/' :: name.data)
  else String.mk (base.data ++ '/' :: name.data)

/-- Characters of a path up to, not including, its last slash. -/
def dropLastSegment (cs : List Char) : List Char :=
  ((cs.reverse.dropWhile (fun c => c != '/')).drop 1).reverse

/-- Path of the group that contains the object at an absolute path. -/
def parentPath (p : String) : String :=
  if dropLastSegment p.data = [] then "/" else String.mk (dropLastSegment p.data)

/-! ## Bytes and conversions -/

/-- Number of elements of a dataspace. -/
def elemCount (dims : List hsize_t) : Nat := dims.foldr (fun d acc => d * acc) 1

/-- Apply `f` to each run of `k` bytes; `fuel` bounds the number of runs. -/
def mapChunksAux (f : List Nat → List Nat) (k : Nat) : Nat → List Nat → List Nat
  | 0, _ => []
  | fuel + 1, bs => if bs = [] then [] else f (bs.take k) ++ mapChunksAux f k fuel (bs.drop k)

/-- Apply `f` to each element of `k` bytes of a buffer. -/
def mapChunks (f : List Nat → List Nat) (k : Nat) (bs : List Nat) : List Nat :=
  mapChunksAux f k bs.length bs

/-- Reverse the byte order of every element of `k` bytes. -/
def swapBytes (k : Nat) (bs : List Nat) : List Nat := mapChunks List.reverse k bs

/-- Value of a little-endian byte string. -/
def decodeLE : List Nat → Nat
  | [] => 0
  | b :: bs => b % 256 + 256 * decodeLE bs

/-- Little-endian byte string of `k` bytes holding `v` modulo `256 ^ k`. -/
def encodeLE : Nat → Nat → List Nat
  | 0, _ => []
  | k + 1, v => v % 256 :: encodeLE k (v / 256)

/-- Integer held by one element of an integer type. -/
def decodeInt (t : DType) (bs : List Nat) : Int :=
  let u := decodeLE (if t.bigEndian then bs.reverse else bs)
  if t.cls = .sint ∧ 256 ^ t.size ≤ 2 * u then (u : Int) - 256 ^ t.size else u

/-- Bytes of one element of an integer type holding `v` (two's complement when signed). -/
def encodeInt (t : DType) (v : Int) : List Nat :=
  let le := encodeLE t.size (v % 256 ^ t.size).toNat
  if t.bigEndian then le.reverse else le

/-- Nearest value that an integer type can hold. -/
def clampInt (t : DType) (v : Int) : Int :=
  if t.cls = .sint then
    if v < -(256 ^ t.size / 2) then -(256 ^ t.size / 2)
    else if 256 ^ t.size / 2 - 1 < v then 256 ^ t.size / 2 - 1 else v
  else
    if v < 0 then 0 else if 256 ^ t.size - 1 < v then 256 ^ t.size - 1 else v

def DType.isInt (t : DType) : Bool := t.cls = .uint || t.cls = .sint

/-- Data conversion performed by the library when it moves elements between two types:
nothing for equal types, a byte swap for types that differ in byte order only, a clamping
conversion between integer types.  Conversions that involve a floating-point value change are
outside the model and reported as failure. -/
def convert (src dst : DType) (raw : List Nat) : Option (List Nat) :=
  if src = dst then some raw
  else if src.cls = dst.cls ∧ src.size = dst.size then some (swapBytes src.size raw)
  else if src.isInt ∧ dst.isInt then
    some (mapChunks (fun e => encodeInt dst (clampInt dst (decodeInt src e))) src.size raw)
  else none

/-- Number of bytes that `n` elements of a type occupy in memory; a variable-length string is
taken whole. -/
def memBytes (t : DType) (n : Nat) (buf : List Nat) : Nat :=
  if t.cls = .string ∧ t.size = H5T_VARIABLE then buf.length else n * t.size

/-- Store `bytes` at the start of `buf`. -/
def overwrite (buf bytes : List Nat) : List Nat := bytes ++ buf.drop bytes.length

/-! ## The identifier table -/

/-- Identifier handed out for the `n`-th opened object; the values below 16 are reserved for
the predefined datatypes and the default property list. -/
def dynId (n : Nat) : hid_t := 16 + (n : Int)

/-- Entry of the identifier table behind an identifier. -/
def lookupHandle (w : World) (id : hid_t) : Option Handle :=
  if id < 16 then none else assoc (id - 16).toNat w.handles

/-- Datatype descriptor behind an identifier, predefined or opened. -/
def typeOf (w : World) (id : hid_t) : Option DType :=
  match predefType w.hostBE id with
  | some t => some t
  | none =>
    match lookupHandle w id with
    | some (Handle.dtype t) => some t
    | _ => none

/-- One library call has been made. -/
def World.step (w : World) : World := { w with tick := w.tick + 1 }

/-- Register a new identifier for `h`. -/
def World.alloc (w : World) (h : Handle) : hid_t × World :=
  (dynId w.next,
   { w with handles := (w.next, h) :: w.handles, next := w.next + 1, tick := w.tick + 1 })

/-- Drop an identifier from the table. -/
def World.release (w : World) (id : hid_t) : World :=
  { w with handles := unassoc (id - 16).toNat w.handles, tick := w.tick + 1 }

/-- Close an identifier whose table entry satisfies `ok`. -/
def closeHandle (ok : Handle → Bool) (id : hid_t) (w : World) : herr_t × World :=
  if w.fail w.tick then (-1, w.step)
  else
    match lookupHandle w id with
    | some h => if ok h then (0, w.release id) else (-1, w.step)
    | none => (-1, w.step)

/-- File and absolute path named by `name` relative to the location `loc`. -/
def locate (w : World) (loc : hid_t) (name : String) : Option (String × String) :=
  match lookupHandle w loc with
  | some (Handle.file f) => some (f, joinPath "/" name)
  | some (Handle.group f p) => some (f, joinPath p name)
  | _ => none

/-- File and path of the object behind a group, dataset or file identifier. -/
def objectOf (w : World) (id : hid_t) : Option (String × String) :=
  match lookupHandle w id with
  | some (Handle.file f) => some (f, "/")
  | some (Handle.group f p) => some (f, p)
  | some (Handle.dataset f p) => some (f, p)
  | _ => none

/-- Container with a root group and nothing else. -/
def emptyFile : H5File := { objs := [("/", Obj.group)], attrs := [] }

/-- Replace the content of a container. -/
def World.putFile (w : World) (f : String) (c : H5File) : World :=
  { w with files := upsert f c w.files }

/-! ## The HDF5 calls made by the source -/

/-- Model of `H5Fcreate(name, H5F_ACC_TRUNC, ..)`: a fresh container replaces the file. -/
def H5Fcreate (name : String) (w : World) : hid_t × World :=
  if w.fail w.tick then (-1, w.step)
  else (w.putFile name emptyFile).alloc (Handle.file name)

/-- Model of `H5Fopen(name, H5F_ACC_RDONLY, ..)`: the file has to exist. -/
def H5Fopen (name : String) (w : World) : hid_t × World :=
  if w.fail w.tick then (-1, w.step)
  else
    match assoc name w.files with
    | some _ => w.alloc (Handle.file name)
    | none => (-1, w.step)

def H5Fclose (id : hid_t) (w : World) : herr_t × World :=
  closeHandle (fun h => match h with | Handle.file _ => true | _ => false) id w

def H5Gclose (id : hid_t) (w : World) : herr_t × World :=
  closeHandle (fun h => match h with | Handle.group _ _ => true | _ => false) id w

def H5Dclose (id : hid_t) (w : World) : herr_t × World :=
  closeHandle (fun h => match h with | Handle.dataset _ _ => true | _ => false) id w

def H5Aclose (id : hid_t) (w : World) : herr_t × World :=
  closeHandle (fun h => match h with | Handle.attr _ _ _ => true | _ => false) id w

def H5Sclose (id : hid_t) (w : World) : herr_t × World :=
  closeHandle (fun h => match h with | Handle.space _ => true | _ => false) id w

def H5Tclose (id : hid_t) (w : World) : herr_t × World :=
  closeHandle (fun h => match h with | Handle.dtype _ => true | _ => false) id w

/-- Model of `H5Gcreate`: the path must be free and its parent must be a group. -/
def H5Gcreate (loc : hid_t) (name : String) (w : World) : hid_t × World :=
  if w.fail w.tick then (-1, w.step)
  else
    match locate w loc name with
    | some (f, p) =>
      match assoc f w.files with
      | some c =>
        if assoc p c.objs = none ∧ assoc (parentPath p) c.objs = some Obj.group then
          (w.putFile f { c with objs := (p, Obj.group) :: c.objs }).alloc (Handle.group f p)
        else (-1, w.step)
      | none => (-1, w.step)
    | none => (-1, w.step)

/-- Model of `H5Gopen`: the path must name a group. -/
def H5Gopen (loc : hid_t) (name : String) (w : World) : hid_t × World :=
  if w.fail w.tick then (-1, w.step)
  else
    match locate w loc name with
    | some (f, p) =>
      match assoc f w.files with
      | some c =>
        match assoc p c.objs with
        | some Obj.group => w.alloc (Handle.group f p)
        | _ => (-1, w.step)
      | none => (-1, w.step)
    | none => (-1, w.step)

/-- Model of `H5Dopen`: the path must name a dataset. -/
def H5Dopen (loc : hid_t) (name : String) (w : World) : hid_t × World :=
  if w.fail w.tick then (-1, w.step)
  else
    match locate w loc name with
    | some (f, p) =>
      match assoc f w.files with
      | some c =>
        match assoc p c.objs with
        | some (Obj.dataset _ _ _) => w.alloc (Handle.dataset f p)
        | _ => (-1, w.step)
      | none => (-1, w.step)
    | none => (-1, w.step)

/-- Model of `H5Screate_simple(rank, dims, NULL)`: `dims` is the array the pointer leads to;
reading `rank` entries from a shorter array is an out-of-bounds read. -/
def H5Screate_simple (rank : Int) (dims : List hsize_t) (w : World) : hid_t × World :=
  if w.fail w.tick then (-1, w.step)
  else if rank < 0 ∨ 32 < rank then (-1, w.step)
  else
    ({ w with ub := w.ub || decide (dims.length < rank.toNat) }).alloc
      (Handle.space (dims.take rank.toNat))

/-- Model of `H5Dcreate`: the path must be free below an existing group; the type and the
dataspace identifiers must be valid.  A new dataset reads as zero bytes. -/
def H5Dcreate (loc : hid_t) (name : String) (typeId spaceId : hid_t) (w : World) :
    hid_t × World :=
  if w.fail w.tick then (-1, w.step)
  else
    match locate w loc name, typeOf w typeId, lookupHandle w spaceId with
    | some (f, p), some t, some (Handle.space dims) =>
      match assoc f w.files with
      | some c =>
        if assoc p c.objs = none ∧ assoc (parentPath p) c.objs = some Obj.group then
          (w.putFile f { c with objs :=
              (p, Obj.dataset t dims (List.replicate (elemCount dims * t.size) 0)) :: c.objs
            }).alloc (Handle.dataset f p)
        else (-1, w.step)
      | none => (-1, w.step)
    | _, _, _ => (-1, w.step)

/-- Model of `H5Dwrite(id, memType, H5S_ALL, H5S_ALL, H5P_DEFAULT, buf)`: all elements of the
dataset are taken from `buf`, converted from the memory type to the stored type. -/
def H5Dwrite (id memTypeId : hid_t) (buf : List Nat) (w : World) : herr_t × World :=
  if w.fail w.tick then (-1, w.step)
  else
    match lookupHandle w id, typeOf w memTypeId with
    | some (Handle.dataset f p), some m =>
      match assoc f w.files with
      | some c =>
        match assoc p c.objs with
        | some (Obj.dataset t dims _) =>
          match convert m t (buf.take (memBytes m (elemCount dims) buf)) with
          | some bytes =>
            (0, { (w.putFile f { c with objs := upsert p (Obj.dataset t dims bytes) c.objs }).step
                  with ub := w.ub || decide (buf.length < memBytes m (elemCount dims) buf) })
          | none => (-1, w.step)
        | _ => (-1, w.step)
      | none => (-1, w.step)
    | _, _ => (-1, w.step)

/-- Model of `H5Dread(id, memType, H5S_ALL, fileSpace, H5P_DEFAULT, buf)` with the whole
extent selected: all elements are converted to the memory type and stored at `buf`; more bytes
than `buf` holds is a write past its end. -/
def H5Dread (id memTypeId fileSpaceId : hid_t) (buf : List Nat) (w : World) :
    herr_t × List Nat × World :=
  if w.fail w.tick then (-1, buf, w.step)
  else
    match lookupHandle w id, typeOf w memTypeId, lookupHandle w fileSpaceId with
    | some (Handle.dataset f p), some m, some (Handle.space _) =>
      match assoc f w.files with
      | some c =>
        match assoc p c.objs with
        | some (Obj.dataset t _ raw) =>
          match convert t m raw with
          | some bytes =>
            (0, overwrite buf bytes,
              { w.step with ub := w.ub || decide (buf.length < bytes.length) })
          | none => (-1, buf, w.step)
        | _ => (-1, buf, w.step)
      | none => (-1, buf, w.step)
    | _, _, _ => (-1, buf, w.step)

/-- Model of `H5Dget_space`. -/
def H5Dget_space (id : hid_t) (w : World) : hid_t × World :=
  if w.fail w.tick then (-1, w.step)
  else
    match lookupHandle w id with
    | some (Handle.dataset f p) =>
      match assoc f w.files with
      | some c =>
        match assoc p c.objs with
        | some (Obj.dataset _ dims _) => w.alloc (Handle.space dims)
        | _ => (-1, w.step)
      | none => (-1, w.step)
    | _ => (-1, w.step)

/-- Model of `H5Dget_type`. -/
def H5Dget_type (id : hid_t) (w : World) : hid_t × World :=
  if w.fail w.tick then (-1, w.step)
  else
    match lookupHandle w id with
    | some (Handle.dataset f p) =>
      match assoc f w.files with
      | some c =>
        match assoc p c.objs with
        | some (Obj.dataset t _ _) => w.alloc (Handle.dtype t)
        | _ => (-1, w.step)
      | none => (-1, w.step)
    | _ => (-1, w.step)

/-- Model of `H5Sget_simple_extent_ndims`. -/
def H5Sget_simple_extent_ndims (id : hid_t) (w : World) : Int × World :=
  if w.fail w.tick then (-1, w.step)
  else
    match lookupHandle w id with
    | some (Handle.space dims) => ((dims.length : Int), w.step)
    | _ => (-1, w.step)

/-- Model of `H5Sget_simple_extent_dims(id, dims, nullptr)`: on success the extents are stored
in the array `out`; on failure the array is left as it was. -/
def H5Sget_simple_extent_dims (id : hid_t) (out : List hsize_t) (w : World) :
    Int × List hsize_t × World :=
  if w.fail w.tick then (-1, out, w.step)
  else
    match lookupHandle w id with
    | some (Handle.space dims) =>
      ((dims.length : Int), dims ++ out.drop dims.length,
        { w.step with ub := w.ub || decide (out.length < dims.length) })
    | _ => (-1, out, w.step)

/-- Model of `H5Tequal`: positive for equal descriptors, zero for different ones, negative
when an identifier is not a datatype. -/
def H5Tequal (w : World) (a b : hid_t) : htri_t :=
  match typeOf w a, typeOf w b with
  | some s, some t => if s = t then 1 else 0
  | _, _ => -1

/-- Model of `H5Tcopy`. -/
def H5Tcopy (id : hid_t) (w : World) : hid_t × World :=
  if w.fail w.tick then (-1, w.step)
  else
    match typeOf w id with
    | some t => w.alloc (Handle.dtype t)
    | none => (-1, w.step)

/-- Model of `H5Tset_size`: only a copied datatype can be resized. -/
def H5Tset_size (id : hid_t) (size : Nat) (w : World) : herr_t × World :=
  if w.fail w.tick then (-1, w.step)
  else
    match lookupHandle w id with
    | some (Handle.dtype t) =>
      (0, { w.step with
            handles := reassoc (id - 16).toNat (Handle.dtype { t with size := size }) w.handles })
    | _ => (-1, w.step)

/-- Model of `H5Acreate2`: the parent must be an open object, the attribute name must be
free on it, the type and the dataspace must be valid. -/
def H5Acreate2 (parentId : hid_t) (name : String) (typeId spaceId : hid_t) (w : World) :
    hid_t × World :=
  if w.fail w.tick then (-1, w.step)
  else
    match objectOf w parentId, typeOf w typeId, lookupHandle w spaceId with
    | some (f, p), some t, some (Handle.space dims) =>
      match assoc f w.files with
      | some c =>
        if assoc p c.objs ≠ none ∧ assoc (p, name) c.attrs = none then
          (w.putFile f { c with attrs := ((p, name), ⟨t, dims, []⟩) :: c.attrs }).alloc
            (Handle.attr f p name)
        else (-1, w.step)
      | none => (-1, w.step)
    | _, _, _ => (-1, w.step)

/-- Model of `H5Awrite(id, memType, buf)`. -/
def H5Awrite (id memTypeId : hid_t) (buf : List Nat) (w : World) : herr_t × World :=
  if w.fail w.tick then (-1, w.step)
  else
    match lookupHandle w id, typeOf w memTypeId with
    | some (Handle.attr f p n), some m =>
      match assoc f w.files with
      | some c =>
        match assoc (p, n) c.attrs with
        | some a =>
          match convert m a.ty (buf.take (memBytes m (elemCount a.dims) buf)) with
          | some bytes =>
            (0, { (w.putFile f { c with attrs := upsert (p, n) { a with raw := bytes } c.attrs
                    }).step
                  with ub := w.ub || decide (buf.length < memBytes m (elemCount a.dims) buf) })
          | none => (-1, w.step)
        | none => (-1, w.step)
      | none => (-1, w.step)
    | _, _ => (-1, w.step)

/-- Model of `H5Aread(id, memType, buf)`. -/
def H5Aread (id memTypeId : hid_t) (buf : List Nat) (w : World) : herr_t × List Nat × World :=
  if w.fail w.tick then (-1, buf, w.step)
  else
    match lookupHandle w id, typeOf w memTypeId with
    | some (Handle.attr f p n), some m =>
      match assoc f w.files with
      | some c =>
        match assoc (p, n) c.attrs with
        | some a =>
          match convert a.ty m a.raw with
          | some bytes =>
            (0, overwrite buf bytes,
              { w.step with ub := w.ub || decide (buf.length < bytes.length) })
          | none => (-1, buf, w.step)
        | none => (-1, buf, w.step)
      | none => (-1, buf, w.step)
    | _, _ => (-1, buf, w.step)

/-- Model of `H5Aexists_by_name`: positive when the attribute exists on the named object,
zero when it does not, negative when the object cannot be reached. -/
def H5Aexists_by_name (loc : hid_t) (objName attrName : String) (w : World) : htri_t × World :=
  if w.fail w.tick then (-1, w.step)
  else
    match locate w loc objName with
    | some (f, p) =>
      match assoc f w.files with
      | some c =>
        if assoc p c.objs = none then (-1, w.step)
        else if assoc (p, attrName) c.attrs = none then (0, w.step)
        else (1, w.step)
      | none => (-1, w.step)
    | none => (-1, w.step)

/-- Model of `H5Aopen_by_name`. -/
def H5Aopen_by_name (loc : hid_t) (objName attrName : String) (w : World) : hid_t × World :=
  if w.fail w.tick then (-1, w.step)
  else
    match locate w loc objName with
    | some (f, p) =>
      match assoc f w.files with
      | some c =>
        if assoc p c.objs = none ∨ assoc (p, attrName) c.attrs = none then (-1, w.step)
        else w.alloc (Handle.attr f p attrName)
      | none => (-1, w.step)
    | none => (-1, w.step)

/-- Model of `H5Aget_type`. -/
def H5Aget_type (id : hid_t) (w : World) : hid_t × World :=
  if w.fail w.tick then (-1, w.step)
  else
    match lookupHandle w id with
    | some (Handle.attr f p n) =>
      match assoc f w.files with
      | some c =>
        match assoc (p, n) c.attrs with
        | some a => w.alloc (Handle.dtype a.ty)
        | none => (-1, w.step)
      | none => (-1, w.step)
    | _ => (-1, w.step)

/-- Model of `H5Oexists_by_name`. -/
def H5Oexists_by_name (loc : hid_t) (name : String) (w : World) : htri_t × World :=
  if w.fail w.tick then (-1, w.step)
  else
    match locate w loc name with
    | some (f, p) =>
      match assoc f w.files with
      | some c => if assoc p c.objs = none then (0, w.step) else (1, w.step)
      | none => (-1, w.step)
    | none => (-1, w.step)

/-- Model of `H5Oget_info_by_name(loc, name, &info, lapl)`: zero and the kind of the object
when it exists, negative and nothing stored otherwise. -/
def H5Oget_info_by_name (loc : hid_t) (name : String) (_lapl : hid_t) (w : World) :
    herr_t × Option H5O_type_t × World :=
  if w.fail w.tick then (-1, none, w.step)
  else
    match locate w loc name with
    | some (f, p) =>
      match assoc f w.files with
      | some c =>
        match assoc p c.objs with
        | some Obj.group => (0, some H5O_type_t.H5O_TYPE_GROUP, w.step)
        | some (Obj.dataset _ _ _) => (0, some H5O_type_t.H5O_TYPE_DATASET, w.step)
        | none => (-1, none, w.step)
      | none => (-1, none, w.step)
    | none => (-1, none, w.step)

/-! ## The VTK image -/

def VTK_VOID : Int := 0
def VTK_BIT : Int := 1
def VTK_CHAR : Int := 2
def VTK_UNSIGNED_CHAR : Int := 3
def VTK_SHORT : Int := 4
def VTK_UNSIGNED_SHORT : Int := 5
def VTK_INT : Int := 6
def VTK_UNSIGNED_INT : Int := 7
def VTK_LONG : Int := 8
def VTK_UNSIGNED_LONG : Int := 9
def VTK_FLOAT : Int := 10
def VTK_DOUBLE : Int := 11
def VTK_ID_TYPE : Int := 12
def VTK_SIGNED_CHAR : Int := 15
def VTK_LONG_LONG : Int := 16
def VTK_UNSIGNED_LONG_LONG : Int := 17

/-- Scalar types for which `vtkTemplateMacro` generates a case. -/
def vtkTemplateMacroTypes : List Int :=
  [VTK_DOUBLE, VTK_FLOAT, VTK_LONG_LONG, VTK_UNSIGNED_LONG_LONG, VTK_ID_TYPE, VTK_LONG,
   VTK_UNSIGNED_LONG, VTK_INT, VTK_UNSIGNED_INT, VTK_SHORT, VTK_UNSIGNED_SHORT, VTK_CHAR,
   VTK_SIGNED_CHAR, VTK_UNSIGNED_CHAR]

/-- Size in bytes of one scalar of a VTK type. -/
def vtkScalarSize (t : Int) : Nat :=
  if t = VTK_CHAR ∨ t = VTK_UNSIGNED_CHAR ∨ t = VTK_SIGNED_CHAR then 1
  else if t = VTK_SHORT ∨ t = VTK_UNSIGNED_SHORT then 2
  else if t = VTK_INT ∨ t = VTK_UNSIGNED_INT ∨ t = VTK_FLOAT then 4
  else if t = VTK_LONG ∨ t = VTK_UNSIGNED_LONG ∨ t = VTK_DOUBLE ∨ t = VTK_ID_TYPE
      ∨ t = VTK_LONG_LONG ∨ t = VTK_UNSIGNED_LONG_LONG then 8
  else 0

/-- Value of a `vtkImageData` seen by the codec: the three dimensions, the scalar type tag and
the bytes of the scalar array. -/
structure vtkImageData where
  dimensions : Int × Int × Int
  scalarType : Int
  scalars : List Nat
deriving DecidableEq, Repr

/-- The array filled by `GetDimensions(int dim[3])`. -/
def vtkImageData.GetDimensions (img : vtkImageData) : List Int :=
  [img.dimensions.1, img.dimensions.2.1, img.dimensions.2.2]

/-- Model of `SetDimensions(const int dims[3])`: three integers are read at the pointer `p`;
the flag tells that the array behind `p` is shorter than that. -/
def vtkImageData.SetDimensions (img : vtkImageData) (p : List Int) : vtkImageData × Bool :=
  ({ img with dimensions := (p.getD 0 0, p.getD 1 0, p.getD 2 0) }, decide (p.length < 3))

/-- Number of points of the image. -/
def vtkImageData.numberOfPoints (img : vtkImageData) : Nat :=
  if img.dimensions.1 ≤ 0 ∨ img.dimensions.2.1 ≤ 0 ∨ img.dimensions.2.2 ≤ 0 then 0
  else (img.dimensions.1 * img.dimensions.2.1 * img.dimensions.2.2).toNat

/-- Model of `AllocateScalars(dataType, numComponents)`: a scalar array of the given type with
one tuple per point. -/
def vtkImageData.AllocateScalars (img : vtkImageData) (dataType : Int) (numComponents : Nat) :
    vtkImageData :=
  { img with
    scalarType := dataType
    scalars := List.replicate (img.numberOfPoints * numComponents * vtkScalarSize dataType) 0 }

/-! ## C++ conversions -/

/-- The conversion `static_cast<hsize_t>(int)`. -/
def toHsize (i : Int) : hsize_t := (i % 2 ^ 64).toNat

/-- The conversion from `hsize_t` to `int` made by `std::copy` into a `std::vector<int>`. -/
def hsizeToInt (v : hsize_t) : Int :=
  if v % 2 ^ 32 < 2 ^ 31 then ((v % 2 ^ 32 : Nat) : Int) else ((v % 2 ^ 32 : Nat) : Int) - 2 ^ 32

/-- Number of binary digits of `n`, for `n < 2 ^ fuel`. -/
def bitLen : Nat → Nat → Nat
  | 0, _ => 0
  | fuel + 1, n => if n = 0 then 0 else bitLen fuel (n / 2) + 1

/-- Bit pattern of the `float` that `int` converts to (round to nearest, ties to even). -/
def floatOfInt (i : Int) : Nat :=
  let m := i.natAbs
  if m = 0 then 0
  else
    let e := bitLen 64 m - 1
    let sign := if i < 0 then 2 ^ 31 else 0
    if e ≤ 23 then sign + (e + 127) * 2 ^ 23 + (m * 2 ^ (23 - e) - 2 ^ 23)
    else
      let q := m / 2 ^ (e - 23)
      let r := m % 2 ^ (e - 23)
      let half := 2 ^ (e - 24)
      let q1 := if half < r ∨ (r = half ∧ q % 2 = 1) then q + 1 else q
      sign + (e + 127) * 2 ^ 23 + (q1 - 2 ^ 23)

/-- Host bytes of an `int`. -/
def intBytes (hostBE : Bool) (v : Int) : List Nat := encodeInt ⟨TClass.sint, 4, hostBE⟩ v

/-- Host bytes of an array of `float` given by bit patterns. -/
def floatBytes (hostBE : Bool) (data : List Nat) : List Nat :=
  (data.map (fun b => encodeInt ⟨TClass.uint, 4, hostBE⟩ (b : Int))).flatten

/-- Bytes of the characters of a C string (the terminating zero is not stored). -/
def strBytes (s : String) : List Nat := s.data.map Char.toNat

/-! ## `EmdFormat.cxx` -/

/-- The function template `writeVolume` (lines 44-64); the element type of `buffer` only fixes
the pointer type and does not enter the body. -/
def writeVolume (buffer : List Nat) (groupId : hid_t) (name : String)
    (dataspaceId dataTypeId memTypeId : hid_t) (w : World) : Bool × World :=
  let success := true
  let (dataId, w) := H5Dcreate groupId name dataTypeId dataspaceId w
  if dataId < 0 then (false, w)
  else
    let (status, w) := H5Dwrite dataId memTypeId buffer w
    let success := if status < 0 then false else success
    let (status, w) := H5Dclose dataId w
    let success := if status < 0 then false else success
    (success, w)

/-- The method `Private::createGroup` (lines 72-76). -/
def Private.createGroup (group : String) (w : World) : hid_t × World :=
  H5Gcreate w.fileId group w

/-- The method `Private::attribute(group, name, void* value, typeId)` (lines 78-103); `value`
is the memory behind the pointer, returned as the call leaves it. -/
def Private.attribute (group name : String) (value : List Nat) (typeId : hid_t) (w : World) :
    Bool × List Nat × World :=
  let (ex, w) := H5Aexists_by_name w.fileId group name w
  if ex < 0 then (false, value, w)
  else
    let (attr, w) := H5Aopen_by_name w.fileId group name w
    let (type, w) := H5Aget_type attr w
    if H5Tequal w type typeId = 0 then
      let (_, w) := H5Aclose attr w
      (false, value, w)
    else if H5Tequal w type typeId < 0 then
      let (_, w) := H5Aclose attr w
      (false, value, w)
    else
      let (status, value, w) := H5Aread attr H5T_NATIVE_INT value w
      (decide (status ≥ 0), value, w)

/-- The overload `Private::attribute(group, name, int& value)` (lines 105-109). -/
def Private.attributeInt (group name : String) (value : Int) (w : World) : Bool × Int × World :=
  let (r, bytes, w1) := Private.attribute group name (intBytes w.hostBE value) H5T_STD_U32LE w
  (r, decodeInt ⟨TClass.sint, 4, w.hostBE⟩ bytes, w1)

/-- The method `Private::setAttribute(group, name, void* value, fileTypeId, typeId, dims,
onData)` (lines 111-145). -/
def Private.setAttribute (group name : String) (value : List Nat) (fileTypeId typeId : hid_t)
    (dims : hsize_t) (onData : Bool) (w : World) : Bool × World :=
  let (parentId, w) := if onData then H5Dopen w.fileId group w else H5Gopen w.fileId group w
  let (dataspaceId, w) := H5Screate_simple 1 [dims] w
  let (attributeId, w) := H5Acreate2 parentId name fileTypeId dataspaceId w
  let (status, w) := H5Awrite attributeId typeId value w
  if status < 0 then (false, w)
  else
    let (status, w) := H5Aclose attributeId w
    if status < 0 then (false, w)
    else
      let (status, w) := H5Sclose dataspaceId w
      if status < 0 then (false, w)
      else
        let (status, w) := if onData then H5Dclose parentId w else H5Gclose parentId w
        if status < 0 then (false, w)
        else (true, w)

/-- The overload `Private::setAttribute(group, name, float value, onData)` (lines 147-152);
the value is given by its bit pattern. -/
def Private.setAttributeFloat (group name : String) (value : Nat) (onData : Bool) (w : World) :
    Bool × World :=
  Private.setAttribute group name (floatBytes w.hostBE [value]) H5T_IEEE_F32LE H5T_NATIVE_FLOAT
    1 onData w

/-- The overload `Private::setAttribute(group, name, int value, onData)` (lines 154-159). -/
def Private.setAttributeInt (group name : String) (value : Int) (onData : Bool) (w : World) :
    Bool × World :=
  Private.setAttribute group name (intBytes w.hostBE value) H5T_STD_U32LE H5T_NATIVE_INT 1
    onData w

/-- The overload `Private::setAttribute(group, name, const std::string& value, onData)`
(lines 161-198). -/
def Private.setAttributeString (group name value : String) (onData : Bool) (w : World) :
    Bool × World :=
  let (parentId, w) := if onData then H5Dopen w.fileId group w else H5Gopen w.fileId group w
  let dims : hsize_t := 1
  let (dataspaceId, w) := H5Screate_simple 1 [dims] w
  let (dataType, w) := H5Tcopy H5T_C_S1 w
  let (_, w) := H5Tset_size dataType H5T_VARIABLE w
  let (attributeId, w) := H5Acreate2 parentId name dataType dataspaceId w
  let tmp := strBytes value
  let (status, w) := H5Awrite attributeId dataType tmp w
  if status < 0 then (false, w)
  else
    let (status, w) := H5Aclose attributeId w
    if status < 0 then (false, w)
    else
      let (status, w) := H5Sclose dataspaceId w
      if status < 0 then (false, w)
      else
        let (status, w) := if onData then H5Dclose parentId w else H5Gclose parentId w
        if status < 0 then (false, w)
        else (true, w)

/-- The overload `Private::writeData(group, name, const std::vector<int>& dims,
const std::vector<float>& data)` (lines 200-222); `data` holds the bit patterns. -/
def Private.writeDataFloats (group name : String) (dims : List Int) (data : List Nat)
    (w : World) : Bool × World :=
  let success := true
  let h5dim := dims.map toHsize
  let (groupId, w) := H5Gopen w.fileId group w
  let (dataspaceId, w) := H5Screate_simple (dims.length : Int) h5dim w
  let (dataId, w) := H5Dcreate groupId name H5T_IEEE_F32LE dataspaceId w
  let (status, w) := H5Dwrite dataId H5T_NATIVE_FLOAT (floatBytes w.hostBE data) w
  let success := if status < 0 then false else success
  let (_, w) := H5Dclose dataId w
  let (_, w) := H5Sclose dataspaceId w
  let (_, w) := H5Gclose groupId w
  (success, w)

/-- The first `switch` of `Private::writeData(group, name, vtkImageData*)` (lines 240-261):
the stored type, the memory type and the value of `success` after it. -/
def writeDataTypes (scalarType : Int) (success : Bool) : hid_t × hid_t × Bool :=
  let dataTypeId : hid_t := 0
  let memTypeId : hid_t := 0
  if scalarType = VTK_FLOAT then (H5T_IEEE_F32LE, H5T_NATIVE_FLOAT, success)
  else if scalarType = VTK_UNSIGNED_INT then (H5T_STD_U32LE, H5T_NATIVE_UINT, success)
  else if scalarType = VTK_UNSIGNED_SHORT then (H5T_STD_U16LE, H5T_NATIVE_USHORT, success)
  else if scalarType = VTK_UNSIGNED_CHAR then (H5T_STD_U8LE, H5T_NATIVE_UCHAR, success)
  else (dataTypeId, memTypeId, false)

/-- The overload `Private::writeData(group, name, vtkImageData* data)` (lines 224-284). -/
def Private.writeData (group name : String) (data : vtkImageData) (w : World) : Bool × World :=
  let success := true
  let dim := data.GetDimensions
  let h5dim := dim.map toHsize
  let dataPtr := data.scalars
  let (dataTypeId, memTypeId, _) := writeDataTypes data.scalarType success
  let (groupId, w) := H5Gopen w.fileId group w
  let (dataspaceId, w) := H5Screate_simple (h5dim.length : Int) h5dim w
  let (success, w) :=
    if data.scalarType ∈ vtkTemplateMacroTypes then
      writeVolume dataPtr groupId name dataspaceId dataTypeId memTypeId w
    else (false, w)
  let (status, w) := H5Sclose dataspaceId w
  let success := if status < 0 then false else success
  let (status, w) := H5Gclose groupId w
  let success := if status < 0 then false else success
  (success, w)

/-- The chain of type tests of `Private::readData` (lines 315-337): the memory type and the
VTK tag chosen for a stored type, or nothing when the last `else` is reached.  A C++ condition
holds for every non-zero value of `H5Tequal`. -/
def readDataTypes (w : World) (dataTypeId : hid_t) : Option (hid_t × Int) :=
  if H5Tequal w dataTypeId H5T_IEEE_F32LE ≠ 0 then some (H5T_NATIVE_FLOAT, VTK_FLOAT)
  else if H5Tequal w dataTypeId H5T_STD_U32LE ≠ 0 then some (H5T_NATIVE_UINT, VTK_UNSIGNED_INT)
  else if H5Tequal w dataTypeId H5T_STD_U16LE ≠ 0 then
    some (H5T_NATIVE_USHORT, VTK_UNSIGNED_SHORT)
  else if H5Tequal w dataTypeId H5T_STD_U8LE ≠ 0 then some (H5T_NATIVE_UCHAR, VTK_UNSIGNED_CHAR)
  else none

/-- The method `Private::readData(path, vtkImageData* data)` (lines 286-351). -/
def Private.readData (path : String) (data : vtkImageData) (w : World) :
    Bool × vtkImageData × World :=
  let dims : List Int := []
  let (datasetId, w) := H5Dopen w.fileId path w
  if datasetId < 0 then (false, data, w)
  else
    let (dataspaceId, w) := H5Dget_space datasetId w
    if dataspaceId < 0 then
      let (_, w) := H5Dclose dataspaceId w
      (false, data, w)
    else
      let (dimCount, w) := H5Sget_simple_extent_ndims dataspaceId w
      if dimCount < 1 then
        let (_, w) := H5Sclose dataspaceId w
        let (_, w) := H5Dclose datasetId w
        (false, data, w)
      else
        let h5dims : List hsize_t := List.replicate dimCount.toNat 0
        let (dimCount2, h5dims, w) := H5Sget_simple_extent_dims dataspaceId h5dims w
        let dims :=
          if dimCount = dimCount2 then (h5dims.take dimCount.toNat).map hsizeToInt else dims
        let (dataTypeId, w) := H5Dget_type datasetId w
        match readDataTypes w dataTypeId with
        | none =>
          let (_, w) := H5Tclose dataTypeId w
          let (_, w) := H5Sclose dataspaceId w
          let (_, w) := H5Dclose datasetId w
          (false, data, w)
        | some (memTypeId, vtkDataType) =>
          let (_, w) := H5Tclose dataTypeId w
          let (data, past) := data.SetDimensions dims
          let w := { w with ub := w.ub || past }
          let data := data.AllocateScalars vtkDataType 1
          let (_, buf, w) := H5Dread datasetId memTypeId dataspaceId data.scalars w
          let data := { data with scalars := buf }
          let (_, w) := H5Sclose dataspaceId w
          let (_, w) := H5Dclose datasetId w
          (true, data, w)

/-- The method `EmdFormat::read(fileName, image)` (lines 358-398).  Both `return` statements
of the final `if` come before the block that closes the file, which is never reached. -/
def EmdFormat.read (fileName : String) (image : vtkImageData) (w : World) :
    Bool × vtkImageData × World :=
  let (fid, w) := H5Fopen fileName w
  let w := { w with fileId := fid }
  let (_, _, w) := Private.attributeInt "/" "version_major" 0 w
  let (_, _, w) := Private.attributeInt "/" "version_minor" 0 w
  let dataLinkExists := false
  let (ex, w) := H5Oexists_by_name w.fileId "/data/tomography" w
  let _dataLinkExists := if ex = 1 then true else dataLinkExists
  let (st, info, w) :=
    H5Oget_info_by_name w.fileId "/data/tomography/data" (if H5P_DEFAULT < 0 then 1 else 0) w
  let dataLinkExists := if st ≠ 0 then false else true
  if dataLinkExists && info == some H5O_type_t.H5O_TYPE_DATASET then
    let (_, image, w) := Private.readData "/data/tomography/data" image w
    (true, image, w)
  else (false, image, w)

/-- The method `EmdFormat::write(fileName, source)` (lines 400-463); `image` is the
`vtkImageData` obtained from the producer of `source`. -/
def EmdFormat.write (fileName : String) (image : vtkImageData) (w : World) : Bool × World :=
  let (fid, w) := H5Fcreate fileName w
  let w := { w with fileId := fid }
  let (groupId, w) := H5Gopen w.fileId "/" w
  let (_, w) := Private.setAttributeInt "/" "version_major" 0 false w
  let (_, w) := Private.setAttributeInt "/" "version_minor" 2 false w
  let (dataGroupId, w) := Private.createGroup "/data" w
  let (tomoGroupId, w) := Private.createGroup "/data/tomography" w
  let (_, w) := Private.setAttributeInt "/data/tomography" "emd_group_type" 1 false w
  let imageDimDataX := (List.range 2).map (fun (i : Nat) => floatOfInt (i : Int))
  let imageDimDataY := (List.range 2).map (fun (i : Nat) => floatOfInt (i : Int))
  let imageDimDataZ := (List.range 2).map (fun (i : Nat) => floatOfInt (i : Int))
  let (_, w) := Private.writeData "/data/tomography" "data" image w
  let side : List Int := [2]
  let (_, w) := Private.writeDataFloats "/data/tomography" "dim1" side imageDimDataX w
  let (_, w) := Private.setAttributeString "/data/tomography/dim1" "name" "x" true w
  let (_, w) := Private.setAttributeString "/data/tomography/dim1" "units" "[n_m]" true w
  let (_, w) := Private.writeDataFloats "/data/tomography" "dim2" side imageDimDataY w
  let (_, w) := Private.setAttributeString "/data/tomography/dim2" "name" "y" true w
  let (_, w) := Private.setAttributeString "/data/tomography/dim2" "units" "[n_m]" true w
  let (_, w) := Private.writeDataFloats "/data/tomography" "dim3" side imageDimDataZ w
  let (_, w) := Private.setAttributeString "/data/tomography/dim3" "name" "z" true w
  let (_, w) := Private.setAttributeString "/data/tomography/dim3" "units" "[n_m]" true w
  let (_, w) := H5Gclose tomoGroupId w
  let (_, w) := H5Gclose dataGroupId w
  let (status, w) := H5Gclose groupId w
  let (status, w) :=
    if w.fileId ≠ H5I_INVALID_HID then
      let (status, w) := H5Fclose w.fileId w
      (status, { w with fileId := H5I_INVALID_HID })
    else (status, w)
  (decide (status ≥ 0), w)

/-! ## Concrete inputs -/

/-- The 4x4x4 volume of 8-bit unsigned values 0..63. -/
def volume444 : vtkImageData :=
  { dimensions := (4, 4, 4), scalarType := VTK_UNSIGNED_CHAR, scalars := List.range 64 }

/-- An image that holds nothing yet. -/
def emptyImage : vtkImageData := { dimensions := (0, 0, 0), scalarType := VTK_DOUBLE, scalars := [] }


/-- An oracle under which no library call reports an I/O failure. -/
def noFail : Nat → Bool := fun _ => false

/-- The element types of the mapping table. -/
def supportedTags : List Int := [VTK_FLOAT, VTK_UNSIGNED_INT, VTK_UNSIGNED_SHORT, VTK_UNSIGNED_CHAR]

/-- The attribute `attrName` stored on the object that `objName` names from `loc`, if any. -/
def storedAttr (w : World) (loc : hid_t) (objName attrName : String) : Option Attr :=
  match locate w loc objName with
  | some (f, p) =>
    match assoc f w.files with
    | some c => if assoc p c.objs = none then none else assoc (p, attrName) c.attrs
    | none => none
  | none => none

/-- Container with a 2x1x1 volume of 8-bit unsigned values, laid out as a write does. -/
def tinyFile : H5File :=
  { objs := [("/data/tomography/data", Obj.dataset ⟨TClass.uint, 1, false⟩ [2, 1, 1] [7, 9]),
             ("/data/tomography", Obj.group), ("/data", Obj.group), ("/", Obj.group)],
    attrs := [(("/", "version_minor"), ⟨⟨TClass.uint, 4, false⟩, [1], [2, 0, 0, 0]⟩),
              (("/", "version_major"), ⟨⟨TClass.uint, 4, false⟩, [1], [0, 0, 0, 0]⟩)] }

/-- A process that has opened the container `c` at `a.emd` and holds its identifier in
`fileId`, as `EmdFormat::read` does before it looks at the file. -/
def openedOn (c : H5File) : World :=
  { files := [("a.emd", c)], handles := [(0, Handle.file "a.emd")], next := 1, tick := 1,
    fail := noFail, hostBE := false, ub := false, fileId := dynId 0 }

/-- The world `openedOn tinyFile`. -/
def tinyOpened : World := openedOn tinyFile

/-- Container with the groups of the schema and no dataset. -/
def groupsFile : H5File :=
  { objs := [("/data/tomography", Obj.group), ("/data", Obj.group), ("/", Obj.group)],
    attrs := [] }

/-- Container whose data node holds one 64-bit float. -/
def doubleFile : H5File :=
  { objs := [("/data/tomography/data",
                Obj.dataset ⟨TClass.float, 8, false⟩ [1, 1, 1] [0, 0, 0, 0, 0, 0, 240, 63]),
             ("/data/tomography", Obj.group), ("/data", Obj.group), ("/", Obj.group)],
    attrs := [] }

/-- Container whose data node is a rank-1 dataset of five 8-bit unsigned values. -/
def rank1File : H5File :=
  { objs := [("/data/tomography/data",
                Obj.dataset ⟨TClass.uint, 1, false⟩ [5] [1, 2, 3, 4, 5]),
             ("/data/tomography", Obj.group), ("/data", Obj.group), ("/", Obj.group)],
    attrs := [] }

/-- Container whose data node is a rank-4 dataset of sixteen 8-bit unsigned values. -/
def rank4File : H5File :=
  { objs := [("/data/tomography/data",
                Obj.dataset ⟨TClass.uint, 1, false⟩ [2, 2, 2, 2] (List.range 16)),
             ("/data/tomography", Obj.group), ("/data", Obj.group), ("/", Obj.group)],
    attrs := [] }

/-- A 1x1x1 volume of one 64-bit float. -/
def doubleVolume : vtkImageData :=
  { dimensions := (1, 1, 1), scalarType := VTK_DOUBLE, scalars := [0, 0, 0, 0, 0, 0, 240, 63] }

/-- An oracle under which exactly the call number `k` reports an I/O failure. -/
def failAt (k : Nat) : Nat → Bool := fun n => n == k

/-- The node `path` of the container at `fileName`. -/
def nodeAt (w : World) (fileName path : String) : Option Obj :=
  match assoc fileName w.files with
  | some c => assoc path c.objs
  | none => none

/-- The attribute `name` of the node `path` of the container at `fileName`. -/
def attrAt (w : World) (fileName path name : String) : Option Attr :=
  match assoc fileName w.files with
  | some c => assoc (path, name) c.attrs
  | none => none

/-- Whether the container holds a dataset at `path`. -/
def isDatasetAt (c : H5File) (path : String) : Bool :=
  match assoc path c.objs with
  | some (Obj.dataset _ _ _) => true
  | _ => false

/-- The variable-length string type made by `H5Tcopy(H5T_C_S1)` and `H5Tset_size`. -/
def varString : DType := ⟨TClass.string, H5T_VARIABLE, false⟩

/-- Stored type that the mapping table gives to a supported tag. -/
def storedTypeOf (tag : Int) : DType :=
  if tag = VTK_FLOAT then ⟨TClass.float, 4, false⟩
  else if tag = VTK_UNSIGNED_INT then ⟨TClass.uint, 4, false⟩
  else if tag = VTK_UNSIGNED_SHORT then ⟨TClass.uint, 2, false⟩
  else ⟨TClass.uint, 1, false⟩

/-- Little-endian bytes of elements of `size` bytes held in host order, and back. -/
def hostSwap (hostBE : Bool) (size : Nat) (bytes : List Nat) : List Nat :=
  if hostBE then swapBytes size bytes else bytes

/-- Extents stored for an image. -/
def storedDims (image : vtkImageData) : List hsize_t :=
  [toHsize image.dimensions.1, toHsize image.dimensions.2.1, toHsize image.dimensions.2.2]

/-- Bit patterns of the floats 0 and 1, the content of a coordinate dataset. -/
def coordBits : List Nat := [0, 1065353216]

/-- A coordinate dataset: two 32-bit floats, 0 and 1, stored little-endian. -/
def coordDataset : Obj := Obj.dataset ⟨TClass.float, 4, false⟩ [2] [0, 0, 0, 0, 0, 0, 128, 63]

/-- An unsigned 32-bit attribute holding `v`. -/
def uintAttr (v : Nat) : Attr := ⟨⟨TClass.uint, 4, false⟩, [1], [v, 0, 0, 0]⟩

/-- A variable-length string attribute holding `s`. -/
def stringAttr (s : String) : Attr := ⟨varString, [1], strBytes s⟩

/-- The data node stored for an image on a host of the given byte order. -/
def dataNode (hostBE : Bool) (image : vtkImageData) : Obj :=
  Obj.dataset (storedTypeOf image.scalarType) (storedDims image)
    (hostSwap hostBE (storedTypeOf image.scalarType).size
      (image.scalars.take
        (elemCount (storedDims image) * (storedTypeOf image.scalarType).size)))

/-- The container that a write of `image` lays down when no library call fails. -/
def writtenFile (hostBE : Bool) (image : vtkImageData) : H5File :=
  { objs := [("/data/tomography/dim3", coordDataset),
             ("/data/tomography/dim2", coordDataset),
             ("/data/tomography/dim1", coordDataset),
             ("/data/tomography/data", dataNode hostBE image),
             ("/data/tomography", Obj.group),
             ("/data", Obj.group),
             ("/", Obj.group)],
    attrs := [(("/data/tomography/dim3", "units"), stringAttr "[n_m]"),
              (("/data/tomography/dim3", "name"), stringAttr "z"),
              (("/data/tomography/dim2", "units"), stringAttr "[n_m]"),
              (("/data/tomography/dim2", "name"), stringAttr "y"),
              (("/data/tomography/dim1", "units"), stringAttr "[n_m]"),
              (("/data/tomography/dim1", "name"), stringAttr "x"),
              (("/data/tomography", "emd_group_type"), uintAttr 1),
              (("/", "version_minor"), uintAttr 2),
              (("/", "version_major"), uintAttr 0)] }

/-- The string datatypes that a write copies and never closes, by identifier offset. -/
def leakedTypes (N : Nat) : List (Nat × Handle) :=
  [(N + 47, Handle.dtype varString), (N + 43, Handle.dtype varString),
   (N + 36, Handle.dtype varString), (N + 32, Handle.dtype varString),
   (N + 25, Handle.dtype varString), (N + 21, Handle.dtype varString)]

/-- Whether an attribute is an unsigned 32-bit attribute holding 0, 1 or 2. -/
def isSmallUint (o : Option Attr) : Bool :=
  decide (o = some (uintAttr 0)) || decide (o = some (uintAttr 1)) ||
    decide (o = some (uintAttr 2))

/-- The world `v` is reached from `w` by calls that keep the files, the member `fileId` and the
open file identifiers. -/
def Evolves (w v : World) : Prop :=
  v.files = w.files ∧ v.fileId = w.fileId ∧ w.next ≤ v.next ∧
    ∀ n fn, n < w.next → assoc n w.handles = some (Handle.file fn) →
      assoc n v.handles = some (Handle.file fn)

/-- The member `fileId` is invalid, or is an open identifier of the file `fileName`. -/
def FileIdOk (fileName : String) (w : World) : Prop :=
  w.fileId = -1 ∨
    ∃ n, w.fileId = dynId n ∧ n < w.next ∧ assoc n w.handles = some (Handle.file fileName)


/-! ## Basic facts about identifiers -/

theorem dynId_eq (n : Nat) : dynId n = (16 : Int) + (n : Int) := rfl

@[simp] theorem lookupHandle_dynId (w : World) (n : Nat) :
    lookupHandle w (dynId n) = assoc n w.handles := by
  unfold lookupHandle
  rw [dynId_eq]
  have h : ¬ ((16 : Int) + (n : Int) < 16) := by omega
  have h2 : ((16 : Int) + (n : Int) - 16).toNat = n := by omega
  rw [if_neg h, h2]

@[simp] theorem predefType_dynId (b : Bool) (n : Nat) : predefType b (dynId n) = none := by
  have e : ∀ k : Int, k < 16 → ((16 : Int) + (n : Int) = k) = False := by
    intro k hk; apply eq_false; omega
  unfold predefType H5T_IEEE_F32LE H5T_STD_U32LE H5T_STD_U16LE H5T_STD_U8LE
    H5T_NATIVE_FLOAT H5T_NATIVE_UINT H5T_NATIVE_USHORT H5T_NATIVE_UCHAR H5T_NATIVE_INT H5T_C_S1
  rw [dynId_eq]
  simp only [e 1 (by decide), e 2 (by decide), e 3 (by decide), e 4 (by decide),
    e 5 (by decide), e 6 (by decide), e 7 (by decide), e 8 (by decide), e 9 (by decide),
    e 10 (by decide), if_false]

@[simp] theorem dynId_sub (n : Nat) : (dynId n - 16).toNat = n := by
  rw [dynId_eq]; omega

@[simp] theorem dynId_not_neg (n : Nat) : (dynId n < 0) = False := by
  rw [dynId_eq]; apply eq_false
  show ¬ ((16 : Int) + (n : Int) < 0)
  omega

@[simp] theorem dynId_ne_invalid (n : Nat) : (dynId n = H5I_INVALID_HID) = False := by
  rw [dynId_eq]; unfold H5I_INVALID_HID; apply eq_false
  show ¬ ((16 : Int) + (n : Int) = -1)
  omega

@[simp] theorem dynId_inj (n m : Nat) : (dynId n = dynId m) = (n = m) := by
  rw [dynId_eq, dynId_eq]; apply propext
  constructor
  · intro h
    have h2 : (16 : Int) + (n : Int) = 16 + (m : Int) := h
    omega
  · intro h; rw [h]

@[simp] theorem lookupHandle_neg_one (w : World) : lookupHandle w (-1) = none := by
  unfold lookupHandle; rfl

@[simp] theorem typeOf_neg_one (w : World) : typeOf w (-1) = none := by
  unfold typeOf; rw [lookupHandle_neg_one]; rfl

theorem typeOf_predef (w : World) (id : hid_t) (t : DType)
    (h : predefType w.hostBE id = some t) : typeOf w id = some t := by
  unfold typeOf; rw [h]

@[simp] theorem typeOf_dynId (w : World) (n : Nat) :
    typeOf w (dynId n) =
      match assoc n w.handles with
      | some (Handle.dtype t) => some t
      | _ => none := by
  unfold typeOf; rw [predefType_dynId, lookupHandle_dynId]

theorem H5Tequal_predef (w : World) (d b : hid_t) (s t : DType)
    (hd : typeOf w d = some s) (hb : predefType w.hostBE b = some t) :
    H5Tequal w d b = if s = t then 1 else 0 := by
  unfold H5Tequal; rw [hd, typeOf_predef w b t hb]

@[simp] theorem typeOf_F32LE (w : World) :
    typeOf w H5T_IEEE_F32LE = some ⟨TClass.float, 4, false⟩ := rfl
@[simp] theorem typeOf_U32LE (w : World) :
    typeOf w H5T_STD_U32LE = some ⟨TClass.uint, 4, false⟩ := rfl
@[simp] theorem typeOf_U16LE (w : World) :
    typeOf w H5T_STD_U16LE = some ⟨TClass.uint, 2, false⟩ := rfl
@[simp] theorem typeOf_U8LE (w : World) :
    typeOf w H5T_STD_U8LE = some ⟨TClass.uint, 1, false⟩ := rfl
@[simp] theorem typeOf_NATIVE_FLOAT (w : World) :
    typeOf w H5T_NATIVE_FLOAT = some ⟨TClass.float, 4, w.hostBE⟩ := rfl
@[simp] theorem typeOf_NATIVE_UINT (w : World) :
    typeOf w H5T_NATIVE_UINT = some ⟨TClass.uint, 4, w.hostBE⟩ := rfl
@[simp] theorem typeOf_NATIVE_USHORT (w : World) :
    typeOf w H5T_NATIVE_USHORT = some ⟨TClass.uint, 2, w.hostBE⟩ := rfl
@[simp] theorem typeOf_NATIVE_UCHAR (w : World) :
    typeOf w H5T_NATIVE_UCHAR = some ⟨TClass.uint, 1, w.hostBE⟩ := rfl
@[simp] theorem typeOf_NATIVE_INT (w : World) :
    typeOf w H5T_NATIVE_INT = some ⟨TClass.sint, 4, w.hostBE⟩ := rfl
@[simp] theorem typeOf_C_S1 (w : World) :
    typeOf w H5T_C_S1 = some ⟨TClass.string, 1, false⟩ := rfl
@[simp] theorem typeOf_zero (w : World) : typeOf w 0 = none := rfl

/-! ## The type tables -/

theorem readDataTypes_of_type (w : World) (d : hid_t) (s : DType) (hd : typeOf w d = some s) :
    readDataTypes w d =
      if s = ⟨TClass.float, 4, false⟩ then some (H5T_NATIVE_FLOAT, VTK_FLOAT)
      else if s = ⟨TClass.uint, 4, false⟩ then some (H5T_NATIVE_UINT, VTK_UNSIGNED_INT)
      else if s = ⟨TClass.uint, 2, false⟩ then some (H5T_NATIVE_USHORT, VTK_UNSIGNED_SHORT)
      else if s = ⟨TClass.uint, 1, false⟩ then some (H5T_NATIVE_UCHAR, VTK_UNSIGNED_CHAR)
      else none := by
  unfold readDataTypes
  rw [H5Tequal_predef w d H5T_IEEE_F32LE s _ hd rfl, H5Tequal_predef w d H5T_STD_U32LE s _ hd rfl,
    H5Tequal_predef w d H5T_STD_U16LE s _ hd rfl, H5Tequal_predef w d H5T_STD_U8LE s _ hd rfl]
  by_cases h1 : s = ⟨TClass.float, 4, false⟩
  · simp [h1]
  by_cases h2 : s = ⟨TClass.uint, 4, false⟩
  · simp [h2]
  by_cases h3 : s = ⟨TClass.uint, 2, false⟩
  · simp [h3]
  by_cases h4 : s = ⟨TClass.uint, 1, false⟩
  · simp [h4]
  simp [h1, h2, h3, h4]

/-- C2: the table of `writeData` and the table of `readData` are inverse to each other.  For
each supported tag, any identifier `d` of the stored type that `writeData` chooses is mapped by
`readData` to the same tag and the same native memory type; and whenever `readData` accepts a
valid stored type, `writeData` chooses that stored type and that memory type for the tag
returned. -/
theorem type_mapping_closure (w : World) :
    (∀ tag ∈ supportedTags, ∀ d : hid_t,
        typeOf w d = typeOf w (writeDataTypes tag true).1 →
        (writeDataTypes tag true).2.2 = true ∧
        readDataTypes w d = some ((writeDataTypes tag true).2.1, tag)) ∧
    (∀ (d : hid_t) (s : DType) (m : hid_t) (tag : Int),
        typeOf w d = some s → readDataTypes w d = some (m, tag) →
        tag ∈ supportedTags ∧ writeDataTypes tag true = ((writeDataTypes tag true).1, m, true) ∧
        typeOf w (writeDataTypes tag true).1 = some s) := by
  constructor
  · intro tag htag d hd
    simp only [supportedTags, List.mem_cons, List.mem_singleton, List.not_mem_nil, or_false]
      at htag
    rcases htag with h | h | h | h <;> subst h
    · have hs : typeOf w d = some ⟨TClass.float, 4, false⟩ := by rw [hd]; rfl
      rw [readDataTypes_of_type w d _ hs]
      exact ⟨rfl, rfl⟩
    · have hs : typeOf w d = some ⟨TClass.uint, 4, false⟩ := by rw [hd]; rfl
      rw [readDataTypes_of_type w d _ hs]
      exact ⟨rfl, rfl⟩
    · have hs : typeOf w d = some ⟨TClass.uint, 2, false⟩ := by rw [hd]; rfl
      rw [readDataTypes_of_type w d _ hs]
      exact ⟨rfl, rfl⟩
    · have hs : typeOf w d = some ⟨TClass.uint, 1, false⟩ := by rw [hd]; rfl
      rw [readDataTypes_of_type w d _ hs]
      exact ⟨rfl, rfl⟩
  · intro d s m tag hd hr
    rw [readDataTypes_of_type w d s hd] at hr
    by_cases h1 : s = ⟨TClass.float, 4, false⟩
    · rw [if_pos h1] at hr
      obtain ⟨rfl, rfl⟩ := Prod.mk.inj (Option.some.inj hr)
      subst h1
      exact ⟨by decide, rfl, rfl⟩
    rw [if_neg h1] at hr
    by_cases h2 : s = ⟨TClass.uint, 4, false⟩
    · rw [if_pos h2] at hr
      obtain ⟨rfl, rfl⟩ := Prod.mk.inj (Option.some.inj hr)
      subst h2
      exact ⟨by decide, rfl, rfl⟩
    rw [if_neg h2] at hr
    by_cases h3 : s = ⟨TClass.uint, 2, false⟩
    · rw [if_pos h3] at hr
      obtain ⟨rfl, rfl⟩ := Prod.mk.inj (Option.some.inj hr)
      subst h3
      exact ⟨by decide, rfl, rfl⟩
    rw [if_neg h3] at hr
    by_cases h4 : s = ⟨TClass.uint, 1, false⟩
    · rw [if_pos h4] at hr
      obtain ⟨rfl, rfl⟩ := Prod.mk.inj (Option.some.inj hr)
      subst h4
      exact ⟨by decide, rfl, rfl⟩
    rw [if_neg h4] at hr
    cases hr


/-! ## Reading an attribute -/

@[simp] theorem lookupHandle_step (w : World) (id : hid_t) :
    lookupHandle w.step id = lookupHandle w id := rfl

@[simp] theorem locate_step (w : World) (loc : hid_t) (g : String) :
    locate w.step loc g = locate w loc g := rfl

@[simp] theorem storedAttr_step (w : World) (loc : hid_t) (g n : String) :
    storedAttr w.step loc g n = storedAttr w loc g n := rfl

theorem H5Aexists_by_name_eq (loc : hid_t) (g n : String) (w : World) :
    H5Aexists_by_name loc g n w = ((H5Aexists_by_name loc g n w).1, w.step) := by
  unfold H5Aexists_by_name
  repeat' split
  all_goals rfl

theorem H5Aexists_by_name_zero (loc : hid_t) (g n : String) (w : World)
    (h : (H5Aexists_by_name loc g n w).1 = 0) : storedAttr w loc g n = none := by
  unfold H5Aexists_by_name at h
  unfold storedAttr
  repeat' split at h
  all_goals simp_all

theorem H5Aexists_by_name_faulty (loc : hid_t) (g n : String) (w : World)
    (h : w.fail w.tick = true) : (H5Aexists_by_name loc g n w).1 = -1 := by
  unfold H5Aexists_by_name; rw [if_pos h]

theorem H5Aexists_by_name_some (loc : hid_t) (g n : String) (w : World) (a : Attr)
    (h : w.fail w.tick = false) (hs : storedAttr w loc g n = some a) :
    (H5Aexists_by_name loc g n w).1 = 1 := by
  unfold H5Aexists_by_name
  unfold storedAttr at hs
  repeat' split
  all_goals simp_all

theorem H5Aopen_by_name_none (loc : hid_t) (g n : String) (w : World)
    (hs : storedAttr w loc g n = none) : H5Aopen_by_name loc g n w = (-1, w.step) := by
  unfold H5Aopen_by_name
  unfold storedAttr at hs
  repeat' split
  all_goals simp_all

theorem H5Aopen_by_name_faulty (loc : hid_t) (g n : String) (w : World)
    (h : w.fail w.tick = true) : H5Aopen_by_name loc g n w = (-1, w.step) := by
  unfold H5Aopen_by_name; rw [if_pos h]

theorem H5Aopen_by_name_some (loc : hid_t) (g n : String) (w : World) (a : Attr)
    (h : w.fail w.tick = false) (hs : storedAttr w loc g n = some a) :
    ∃ f p c, H5Aopen_by_name loc g n w = w.alloc (Handle.attr f p n) ∧
      assoc f w.files = some c ∧ assoc (p, n) c.attrs = some a := by
  unfold H5Aopen_by_name
  unfold storedAttr at hs
  repeat' split
  all_goals simp_all
  exact ⟨_, _, rfl, _, by assumption, hs.2⟩

theorem H5Aget_type_invalid (w : World) : H5Aget_type (-1) w = (-1, w.step) := by
  unfold H5Aget_type
  rw [lookupHandle_neg_one]
  split <;> rfl

theorem H5Aget_type_faulty (id : hid_t) (w : World) (h : w.fail w.tick = true) :
    H5Aget_type id w = (-1, w.step) := by
  unfold H5Aget_type; rw [if_pos h]

theorem H5Aget_type_attr (k : Nat) (w : World) (f p n : String) (c : H5File) (a : Attr)
    (h : w.fail w.tick = false) (hk : assoc k w.handles = some (Handle.attr f p n))
    (hc : assoc f w.files = some c) (ha : assoc (p, n) c.attrs = some a) :
    H5Aget_type (dynId k) w = w.alloc (Handle.dtype a.ty) := by
  unfold H5Aget_type
  rw [lookupHandle_dynId, hk]
  simp only [h, Bool.false_eq_true, if_false, hc, ha]

theorem H5Aread_faulty (id m : hid_t) (buf : List Nat) (w : World) (h : w.fail w.tick = true) :
    H5Aread id m buf w = (-1, buf, w.step) := by
  unfold H5Aread; rw [if_pos h]

theorem H5Aread_attr (k : Nat) (m : hid_t) (mt : DType) (buf : List Nat) (w : World)
    (f p n : String) (c : H5File) (a : Attr)
    (h : w.fail w.tick = false) (hk : assoc k w.handles = some (Handle.attr f p n))
    (hm : typeOf w m = some mt)
    (hc : assoc f w.files = some c) (ha : assoc (p, n) c.attrs = some a) :
    H5Aread (dynId k) m buf w =
      match convert a.ty mt a.raw with
      | some bytes =>
        (0, overwrite buf bytes, { w.step with ub := w.ub || decide (buf.length < bytes.length) })
      | none => (-1, buf, w.step) := by
  unfold H5Aread
  rw [lookupHandle_dynId, hk, hm]
  simp only [h, Bool.false_eq_true, if_false, hc, ha]

@[simp] theorem step_fileId (w : World) : w.step.fileId = w.fileId := rfl
@[simp] theorem step_fail (w : World) : w.step.fail = w.fail := rfl
@[simp] theorem step_tick (w : World) : w.step.tick = w.tick + 1 := rfl
@[simp] theorem step_hostBE (w : World) : w.step.hostBE = w.hostBE := rfl
@[simp] theorem step_files (w : World) : w.step.files = w.files := rfl
@[simp] theorem step_handles (w : World) : w.step.handles = w.handles := rfl
@[simp] theorem step_next (w : World) : w.step.next = w.next := rfl

@[simp] theorem alloc_fst (w : World) (h : Handle) : (w.alloc h).1 = dynId w.next := rfl
@[simp] theorem alloc_fileId (w : World) (h : Handle) : (w.alloc h).2.fileId = w.fileId := rfl
@[simp] theorem alloc_fail (w : World) (h : Handle) : (w.alloc h).2.fail = w.fail := rfl
@[simp] theorem alloc_tick (w : World) (h : Handle) : (w.alloc h).2.tick = w.tick + 1 := rfl
@[simp] theorem alloc_hostBE (w : World) (h : Handle) : (w.alloc h).2.hostBE = w.hostBE := rfl
@[simp] theorem alloc_files (w : World) (h : Handle) : (w.alloc h).2.files = w.files := rfl
@[simp] theorem alloc_next (w : World) (h : Handle) : (w.alloc h).2.next = w.next + 1 := rfl
@[simp] theorem alloc_handles (w : World) (h : Handle) :
    (w.alloc h).2.handles = (w.next, h) :: w.handles := rfl

theorem alloc_eq (w : World) (h : Handle) : w.alloc h = (dynId w.next, (w.alloc h).2) := rfl

@[simp] theorem assoc_cons_self {α β : Type} [DecidableEq α] (k : α) (v : β) (l : List (α × β)) :
    assoc k ((k, v) :: l) = some v := by
  simp [assoc]

theorem H5Tequal_invalid (v : World) (b : hid_t) : H5Tequal v (-1) b = -1 := by
  unfold H5Tequal; rw [typeOf_neg_one]

theorem attribute_cases (w : World) (group name : String) (value : List Nat) (typeId : hid_t)
    (t : DType) (ht : predefType w.hostBE typeId = some t) :
    ((Private.attribute group name value typeId w).1,
       (Private.attribute group name value typeId w).2.1) =
      match storedAttr w w.fileId group name with
      | none => (false, value)
      | some a =>
        if w.fail w.tick = true ∨ w.fail (w.tick + 1) = true ∨ w.fail (w.tick + 2) = true
            ∨ a.ty ≠ t ∨ w.fail (w.tick + 3) = true then (false, value)
        else
          match convert a.ty ⟨TClass.sint, 4, w.hostBE⟩ a.raw with
          | some bytes => (true, overwrite value bytes)
          | none => (false, value) := by
  have e1 := H5Aexists_by_name_eq w.fileId group name w
  cases hs : storedAttr w w.fileId group name with
  | none =>
    have e2 : H5Aopen_by_name w.step.fileId group name w.step = (-1, w.step.step) :=
      H5Aopen_by_name_none _ _ _ _ (by simpa using hs)
    have e3 := H5Aget_type_invalid w.step.step
    have e4 := H5Tequal_invalid w.step.step.step typeId
    unfold Private.attribute
    rw [e1]
    simp only [e2, e3, e4]
    by_cases hneg : (H5Aexists_by_name w.fileId group name w).1 < 0
    · simp only [hneg, if_true]
    · simp only [hneg, if_false]
      rfl
  | some a =>
    dsimp only
    by_cases h0 : w.fail w.tick = true
    · unfold Private.attribute
      rw [e1, H5Aexists_by_name_faulty w.fileId group name w h0]
      simp [h0]
    have h0f : w.fail w.tick = false := by simpa using h0
    rw [H5Aexists_by_name_some _ _ _ _ a h0f hs] at e1
    by_cases h1 : w.fail (w.tick + 1) = true
    · have e2 : H5Aopen_by_name w.step.fileId group name w.step = (-1, w.step.step) :=
        H5Aopen_by_name_faulty _ _ _ _ (by simpa using h1)
      have e3 := H5Aget_type_invalid w.step.step
      have e4 := H5Tequal_invalid w.step.step.step typeId
      unfold Private.attribute
      simp only [e1, e2, e3, e4]
      simp [h1]
    have h1f : w.fail (w.tick + 1) = false := by simpa using h1
    obtain ⟨f, p, c, ho, hc, ha⟩ :=
      H5Aopen_by_name_some w.step.fileId group name w.step a (by simpa using h1f)
        (by simpa using hs)
    rw [alloc_eq] at ho
    generalize hw2 : (w.step.alloc (Handle.attr f p name)).2 = w2 at ho
    have w2fail : w2.fail = w.fail := by rw [← hw2]; rfl
    have w2tick : w2.tick = w.tick + 2 := by rw [← hw2]; rfl
    have w2host : w2.hostBE = w.hostBE := by rw [← hw2]; rfl
    have w2files : w2.files = w.files := by rw [← hw2]; rfl
    have w2next : w2.next = w.next + 1 := by rw [← hw2]; rfl
    have w2h : w2.handles = (w.next, Handle.attr f p name) :: w.handles := by rw [← hw2]; rfl
    rw [step_next] at ho
    by_cases h2 : w.fail (w.tick + 2) = true
    · have e3 : H5Aget_type (dynId w.next) w2 = (-1, w2.step) :=
        H5Aget_type_faulty _ _ (by rw [w2fail, w2tick]; exact h2)
      have e4 := H5Tequal_invalid w2.step typeId
      unfold Private.attribute
      simp only [e1, ho, e3, e4]
      simp [h2]
    have h2f : w.fail (w.tick + 2) = false := by simpa using h2
    have e3 : H5Aget_type (dynId w.next) w2 = w2.alloc (Handle.dtype a.ty) :=
      H5Aget_type_attr w.next w2 f p name c a (by rw [w2fail, w2tick]; exact h2f)
        (by rw [w2h]; exact assoc_cons_self _ _ _) (by rw [w2files]; exact hc) ha
    rw [alloc_eq] at e3
    generalize hw3 : (w2.alloc (Handle.dtype a.ty)).2 = w3 at e3
    have w3fail : w3.fail = w.fail := by rw [← hw3, alloc_fail, w2fail]
    have w3tick : w3.tick = w.tick + 3 := by rw [← hw3, alloc_tick, w2tick]
    have w3host : w3.hostBE = w.hostBE := by rw [← hw3, alloc_hostBE, w2host]
    have w3files : w3.files = w.files := by rw [← hw3, alloc_files, w2files]
    have w3h : w3.handles = (w.next + 1, Handle.dtype a.ty) ::
        (w.next, Handle.attr f p name) :: w.handles := by rw [← hw3, alloc_handles, w2h, w2next]
    rw [w2next] at e3
    have e4 : H5Tequal w3 (dynId (w.next + 1)) typeId = if a.ty = t then 1 else 0 :=
      H5Tequal_predef w3 _ _ a.ty t (by rw [typeOf_dynId, w3h, assoc_cons_self])
        (by rw [w3host]; exact ht)
    by_cases hty : a.ty = t
    · rw [if_pos hty] at e4
      by_cases h3 : w.fail (w.tick + 3) = true
      · have e5 : H5Aread (dynId w.next) H5T_NATIVE_INT value w3 = (-1, value, w3.step) :=
          H5Aread_faulty _ _ _ _ (by rw [w3fail, w3tick]; exact h3)
        unfold Private.attribute
        simp only [e1, ho, e3, e4, e5]
        simp [h3]
      have h3f : w.fail (w.tick + 3) = false := by simpa using h3
      have e5 := H5Aread_attr w.next H5T_NATIVE_INT ⟨TClass.sint, 4, w.hostBE⟩ value w3 f p
        name c a (by rw [w3fail, w3tick]; exact h3f)
        (by rw [w3h]; simp [assoc])
        (typeOf_predef w3 _ _ (by rw [w3host]; rfl)) (by rw [w3files]; exact hc) ha
      unfold Private.attribute
      simp only [e1, ho, e3, e4, e5]
      cases hcv : convert a.ty ⟨TClass.sint, 4, w.hostBE⟩ a.raw with
      | none => simp [h0, h1, h2, h3, hty]
      | some bytes => simp [h0, h1, h2, h3, hty]
    · rw [if_neg hty] at e4
      unfold Private.attribute
      simp only [e1, ho, e3, e4]
      simp [hty]

/-! ## Worlds reached without closing a file -/

theorem Evolves.refl (w : World) : Evolves w w :=
  ⟨rfl, rfl, Nat.le_refl _, fun _ _ _ h => h⟩

theorem Evolves.trans {u v w : World} (h1 : Evolves u v) (h2 : Evolves v w) : Evolves u w :=
  ⟨h2.1.trans h1.1, h2.2.1.trans h1.2.1, Nat.le_trans h1.2.2.1 h2.2.2.1,
    fun n fn hn h => h2.2.2.2 n fn (Nat.lt_of_lt_of_le hn h1.2.2.1) (h1.2.2.2 n fn hn h)⟩

theorem Evolves.fileIdOk {w v : World} {fileName : String} (h : Evolves w v)
    (hw : FileIdOk fileName w) : FileIdOk fileName v := by
  rcases hw with hw | ⟨n, hid, hn, ha⟩
  · exact Or.inl (h.2.1.trans hw)
  · exact Or.inr ⟨n, h.2.1.trans hid, Nat.lt_of_lt_of_le hn h.2.2.1, h.2.2.2 n fileName hn ha⟩

theorem evolves_step (w : World) : Evolves w w.step :=
  ⟨rfl, rfl, Nat.le_refl _, fun _ _ _ h => h⟩

theorem evolves_ub (w : World) (b : Bool) : Evolves w { w with ub := b } :=
  ⟨rfl, rfl, Nat.le_refl _, fun _ _ _ h => h⟩

theorem evolves_alloc (w : World) (h : Handle) : Evolves w (w.alloc h).2 := by
  refine ⟨rfl, rfl, Nat.le_succ _, fun n fn hn ha => ?_⟩
  rw [alloc_handles]
  unfold assoc
  rw [if_neg (Nat.ne_of_lt hn)]
  exact ha

theorem assoc_unassoc_ne {α β : Type} [DecidableEq α] (k n : α) (l : List (α × β))
    (h : n ≠ k) : assoc n (unassoc k l) = assoc n l := by
  induction l with
  | nil => rfl
  | cons x xs ih =>
    obtain ⟨k1, v1⟩ := x
    unfold unassoc
    by_cases hk : k = k1
    · rw [if_pos hk]
      subst hk
      conv_rhs => unfold assoc
      rw [if_neg h]
    · rw [if_neg hk]
      unfold assoc
      rw [ih]

theorem evolves_closeHandle (ok : Handle → Bool) (hok : ∀ fn, ok (Handle.file fn) = false)
    (id : hid_t) (w : World) : Evolves w (closeHandle ok id w).2 := by
  unfold closeHandle
  split
  · exact evolves_step w
  · split
    · rename_i h hl
      split
      · rename_i hokh
        refine ⟨rfl, rfl, Nat.le_refl _, fun n fn hn ha => ?_⟩
        show assoc n (unassoc (id - 16).toNat w.handles) = some (Handle.file fn)
        rw [assoc_unassoc_ne _ _ _ ?_]
        · exact ha
        · intro hnk
          unfold lookupHandle at hl
          split at hl
          · cases hl
          · rw [← hnk, ha] at hl
            cases hl
            rw [hok] at hokh
            cases hokh
      · exact evolves_step w
    · exact evolves_step w

theorem evolves_H5Aclose (id : hid_t) (w : World) : Evolves w (H5Aclose id w).2 :=
  evolves_closeHandle _ (fun _ => rfl) id w

theorem evolves_H5Aexists_by_name (loc : hid_t) (g n : String) (w : World) :
    Evolves w (H5Aexists_by_name loc g n w).2 := by
  rw [H5Aexists_by_name_eq]; exact evolves_step w

theorem evolves_H5Aopen_by_name (loc : hid_t) (g n : String) (w : World) :
    Evolves w (H5Aopen_by_name loc g n w).2 := by
  unfold H5Aopen_by_name
  repeat' split
  all_goals first | exact evolves_step w | exact evolves_alloc w _

theorem evolves_H5Aget_type (id : hid_t) (w : World) : Evolves w (H5Aget_type id w).2 := by
  unfold H5Aget_type
  repeat' split
  all_goals first | exact evolves_step w | exact evolves_alloc w _

theorem evolves_H5Aread (id m : hid_t) (buf : List Nat) (w : World) :
    Evolves w (H5Aread id m buf w).2.2 := by
  unfold H5Aread
  repeat' split
  all_goals exact evolves_step w

theorem evolves_H5Oexists_by_name (loc : hid_t) (g : String) (w : World) :
    Evolves w (H5Oexists_by_name loc g w).2 := by
  unfold H5Oexists_by_name
  repeat' split
  all_goals exact evolves_step w

theorem evolves_attribute (group name : String) (value : List Nat) (typeId : hid_t)
    (w : World) : Evolves w (Private.attribute group name value typeId w).2.2 := by
  have step1 : ∀ {u v : World} (loc : hid_t), Evolves u v →
      Evolves u (H5Aopen_by_name loc group name v).2 :=
    fun _ h => h.trans (evolves_H5Aopen_by_name _ _ _ _)
  have step2 : ∀ {u v : World} (id : hid_t), Evolves u v → Evolves u (H5Aget_type id v).2 :=
    fun _ h => h.trans (evolves_H5Aget_type _ _)
  have step3 : ∀ {u v : World} (id : hid_t), Evolves u v → Evolves u (H5Aclose id v).2 :=
    fun _ h => h.trans (evolves_H5Aclose _ _)
  have step4 : ∀ {u v : World} (id m : hid_t) (buf : List Nat), Evolves u v →
      Evolves u (H5Aread id m buf v).2.2 :=
    fun _ _ _ h => h.trans (evolves_H5Aread _ _ _ _)
  have a1 := evolves_H5Aexists_by_name w.fileId group name w
  unfold Private.attribute
  dsimp only
  split
  · exact a1
  · split
    · exact step3 _ (step2 _ (step1 _ a1))
    · split
      · exact step3 _ (step2 _ (step1 _ a1))
      · exact step4 _ _ _ (step2 _ (step1 _ a1))

theorem evolves_attributeInt (group name : String) (value : Int) (w : World) :
    Evolves w (Private.attributeInt group name value w).2.2 :=
  evolves_attribute group name _ _ w

/-! ## Reading a container without a data node -/

theorem fileIdOk_H5Fopen (fileName : String) (w : World) :
    FileIdOk fileName { (H5Fopen fileName w).2 with fileId := (H5Fopen fileName w).1 } ∧
      (H5Fopen fileName w).2.files = w.files := by
  unfold H5Fopen
  repeat' split
  · exact ⟨Or.inl rfl, rfl⟩
  · exact ⟨Or.inr ⟨w.next, rfl, Nat.lt_succ_self _, assoc_cons_self _ _ _⟩, rfl⟩
  · exact ⟨Or.inl rfl, rfl⟩

@[simp] theorem joinPath_data (base : String) :
    joinPath base "/data/tomography/data" = "/data/tomography/data" := rfl

theorem H5Oget_info_by_name_no_dataset (fileName : String) (lapl : hid_t) (v : World)
    (hid : FileIdOk fileName v)
    (h : ∀ c ty dims raw, assoc fileName v.files = some c →
      assoc "/data/tomography/data" c.objs ≠ some (Obj.dataset ty dims raw)) :
    (H5Oget_info_by_name v.fileId "/data/tomography/data" lapl v).2.1
      ≠ some H5O_type_t.H5O_TYPE_DATASET := by
  have hloc : ∀ f p, locate v v.fileId "/data/tomography/data" = some (f, p) →
      f = fileName ∧ p = "/data/tomography/data" := by
    intro f p hl
    unfold locate at hl
    rcases hid with hid | ⟨n, hid, _, ha⟩
    · rw [hid, lookupHandle_neg_one] at hl
      cases hl
    · rw [hid, lookupHandle_dynId, ha] at hl
      simp only [Option.some.injEq, Prod.mk.injEq, joinPath_data] at hl
      exact ⟨hl.1.symm, hl.2.symm⟩
  unfold H5Oget_info_by_name
  by_cases hfl : v.fail v.tick = true
  · rw [if_pos hfl]; simp
  · rw [if_neg hfl]
    cases hl : locate v v.fileId "/data/tomography/data" with
    | none => simp
    | some fp =>
      obtain ⟨f, p⟩ := fp
      obtain ⟨rfl, rfl⟩ := hloc f p hl
      dsimp only
      cases hc : assoc f v.files with
      | none => simp
      | some c =>
        dsimp only
        cases ho : assoc "/data/tomography/data" c.objs with
        | none => simp
        | some o =>
          cases o with
          | group => simp
          | dataset ty dims raw => exact absurd ho (h c ty dims raw hc)

/-- C7: when the container at `fileName` has no dataset at `/data/tomography/data` (the node is
absent, is a group, or the file itself is absent), `EmdFormat::read` returns failure and hands
the image back untouched, whatever the library calls before the test report (the version
attributes may be present or not, any call may fail). -/
theorem read_missing_data_node (fileName : String) (image : vtkImageData) (w : World)
    (h : ∀ c ty dims raw, assoc fileName w.files = some c →
      assoc "/data/tomography/data" c.objs ≠ some (Obj.dataset ty dims raw)) :
    (EmdFormat.read fileName image w).1 = false ∧
      (EmdFormat.read fileName image w).2.1 = image := by
  obtain ⟨hok, hfiles⟩ := fileIdOk_H5Fopen fileName w
  generalize hw1 : ({ (H5Fopen fileName w).2 with fileId := (H5Fopen fileName w).1 } : World)
    = w1 at hok
  have hf1 : w1.files = w.files := by rw [← hw1]; exact hfiles
  have e2 := evolves_attributeInt "/" "version_major" 0 w1
  have e3 := e2.trans (evolves_attributeInt "/" "version_minor" 0 _)
  have e4 := e3.trans (evolves_H5Oexists_by_name
    (Private.attributeInt "/" "version_minor" 0
      (Private.attributeInt "/" "version_major" 0 w1).2.2).2.2.fileId "/data/tomography" _)
  have hcond := H5Oget_info_by_name_no_dataset fileName (if H5P_DEFAULT < 0 then 1 else 0) _
    (e4.fileIdOk hok) (by rw [e4.1, hf1]; exact h)
  unfold EmdFormat.read
  dsimp only
  rw [hw1]
  rw [if_neg (by simp [hcond])]
  exact ⟨rfl, rfl⟩

/-- C9: `Private::attribute` called with a predefined expected type `typeId`.  It returns
failure and leaves the output untouched when `H5Aexists_by_name` reports 0, when no such
attribute is stored at the node, and when the stored type differs from the expected one; and
when it returns success the attribute is stored, its type equals the expected type, the read
call did not fail and the output holds the value read. -/
theorem attribute_failure_cases (w : World) (group name : String) (value : List Nat)
    (typeId : hid_t) (t : DType) (ht : predefType w.hostBE typeId = some t) :
    ((H5Aexists_by_name w.fileId group name w).1 = 0 →
      (Private.attribute group name value typeId w).1 = false ∧
      (Private.attribute group name value typeId w).2.1 = value) ∧
    (storedAttr w w.fileId group name = none →
      (Private.attribute group name value typeId w).1 = false ∧
      (Private.attribute group name value typeId w).2.1 = value) ∧
    (∀ a, storedAttr w w.fileId group name = some a → a.ty ≠ t →
      (Private.attribute group name value typeId w).1 = false ∧
      (Private.attribute group name value typeId w).2.1 = value) ∧
    ((Private.attribute group name value typeId w).1 = true →
      ∃ a bytes, storedAttr w w.fileId group name = some a ∧ a.ty = t ∧
        w.fail (w.tick + 3) = false ∧
        convert a.ty ⟨TClass.sint, 4, w.hostBE⟩ a.raw = some bytes ∧
        (Private.attribute group name value typeId w).2.1 = overwrite value bytes) := by
  have hc := attribute_cases w group name value typeId t ht
  have hnone : storedAttr w w.fileId group name = none →
      (Private.attribute group name value typeId w).1 = false ∧
      (Private.attribute group name value typeId w).2.1 = value := by
    intro hs
    rw [hs] at hc
    exact Prod.mk.inj hc
  refine ⟨fun h0 => hnone (H5Aexists_by_name_zero _ _ _ _ h0), hnone, ?_, ?_⟩
  · intro a hs hne
    rw [hs] at hc
    dsimp only at hc
    rw [if_pos (Or.inr (Or.inr (Or.inr (Or.inl hne))))] at hc
    exact Prod.mk.inj hc
  · intro hres
    cases hs : storedAttr w w.fileId group name with
    | none =>
      rw [(hnone hs).1] at hres
      cases hres
    | some a =>
      rw [hs] at hc
      dsimp only at hc
      by_cases hcond : w.fail w.tick = true ∨ w.fail (w.tick + 1) = true ∨
          w.fail (w.tick + 2) = true ∨ a.ty ≠ t ∨ w.fail (w.tick + 3) = true
      · rw [if_pos hcond] at hc
        rw [(Prod.mk.inj hc).1] at hres
        cases hres
      · rw [if_neg hcond] at hc
        cases hcv : convert a.ty ⟨TClass.sint, 4, w.hostBE⟩ a.raw with
        | none =>
          rw [hcv] at hc
          rw [(Prod.mk.inj hc).1] at hres
          cases hres
        | some bytes =>
          rw [hcv] at hc
          refine ⟨a, bytes, rfl, ?_, ?_, hcv, (Prod.mk.inj hc).2⟩
          · by_contra hne
            exact hcond (Or.inr (Or.inr (Or.inr (Or.inl hne))))
          · cases hf : w.fail (w.tick + 3) with
            | false => rfl
            | true => exact absurd (Or.inr (Or.inr (Or.inr (Or.inr hf)))) hcond

theorem attribute_failure_cases_witness :
    predefType tinyOpened.hostBE H5T_NATIVE_FLOAT = some ⟨TClass.float, 4, false⟩ ∧
    (((H5Aexists_by_name tinyOpened.fileId "/" "version_major" tinyOpened).1 = 0 →
      (Private.attribute "/" "version_major" [5, 5, 5, 5] H5T_NATIVE_FLOAT tinyOpened).1 = false ∧
      (Private.attribute "/" "version_major" [5, 5, 5, 5] H5T_NATIVE_FLOAT tinyOpened).2.1
        = [5, 5, 5, 5]) ∧
    (storedAttr tinyOpened tinyOpened.fileId "/" "version_major" = none →
      (Private.attribute "/" "version_major" [5, 5, 5, 5] H5T_NATIVE_FLOAT tinyOpened).1 = false ∧
      (Private.attribute "/" "version_major" [5, 5, 5, 5] H5T_NATIVE_FLOAT tinyOpened).2.1
        = [5, 5, 5, 5]) ∧
    (∀ a, storedAttr tinyOpened tinyOpened.fileId "/" "version_major" = some a →
      a.ty ≠ ⟨TClass.float, 4, false⟩ →
      (Private.attribute "/" "version_major" [5, 5, 5, 5] H5T_NATIVE_FLOAT tinyOpened).1 = false ∧
      (Private.attribute "/" "version_major" [5, 5, 5, 5] H5T_NATIVE_FLOAT tinyOpened).2.1
        = [5, 5, 5, 5]) ∧
    ((Private.attribute "/" "version_major" [5, 5, 5, 5] H5T_NATIVE_FLOAT tinyOpened).1 = true →
      ∃ a bytes, storedAttr tinyOpened tinyOpened.fileId "/" "version_major" = some a ∧
        a.ty = ⟨TClass.float, 4, false⟩ ∧
        tinyOpened.fail (tinyOpened.tick + 3) = false ∧
        convert a.ty ⟨TClass.sint, 4, tinyOpened.hostBE⟩ a.raw = some bytes ∧
        (Private.attribute "/" "version_major" [5, 5, 5, 5] H5T_NATIVE_FLOAT tinyOpened).2.1
          = overwrite [5, 5, 5, 5] bytes)) :=
  ⟨rfl, attribute_failure_cases tinyOpened "/" "version_major" [5, 5, 5, 5] H5T_NATIVE_FLOAT
    ⟨TClass.float, 4, false⟩ rfl⟩

theorem read_missing_data_node_witness :
    (∀ c ty dims raw, assoc "a.emd" (World.init [("a.emd", emptyFile)] noFail false).files
        = some c →
      assoc "/data/tomography/data" c.objs ≠ some (Obj.dataset ty dims raw)) ∧
    (EmdFormat.read "a.emd" emptyImage (World.init [("a.emd", emptyFile)] noFail false)).1
      = false ∧
    (EmdFormat.read "a.emd" emptyImage (World.init [("a.emd", emptyFile)] noFail false)).2.1
      = emptyImage :=
  have h : ∀ c ty dims raw, assoc "a.emd" (World.init [("a.emd", emptyFile)] noFail false).files
        = some c →
      assoc "/data/tomography/data" c.objs ≠ some (Obj.dataset ty dims raw) := by
    intro c ty dims raw hc h2
    have hc2 : c = emptyFile := by
      simpa [World.init, assoc] using hc.symm
    subst hc2
    simp [assoc, emptyFile] at h2
  ⟨h, read_missing_data_node "a.emd" emptyImage _ h⟩

/-! ## Evaluations at concrete inputs -/

set_option maxRecDepth 100000 in
/-- C4: a 1x1x1 volume of 64-bit floats.  `Private::writeData` reports failure for it and
creates no data node, yet `EmdFormat::write` returns success: it drops the value returned by
`writeData` and returns the status of the last close call only. -/
theorem write_unsupported_type_returns_success :
    (Private.writeData "/data/tomography" "data" doubleVolume (openedOn groupsFile)).1 = false ∧
    (EmdFormat.write "a.emd" doubleVolume (World.init [] noFail false)).1 = true ∧
    nodeAt (EmdFormat.write "a.emd" doubleVolume (World.init [] noFail false)).2 "a.emd"
      "/data/tomography/data" = none := by
  decide

set_option maxRecDepth 100000 in
/-- C5: the fifth library call of a write, the `H5Acreate2` of `version_major`, reports an I/O
failure.  The attribute is not created, and `EmdFormat::write` still returns success. -/
theorem write_ignores_failed_step :
    (EmdFormat.write "a.emd" volume444 (World.init [] (failAt 4) false)).1 = true ∧
    attrAt (EmdFormat.write "a.emd" volume444 (World.init [] (failAt 4) false)).2 "a.emd" "/"
      "version_major" = none ∧
    attrAt (EmdFormat.write "a.emd" volume444 (World.init [] noFail false)).2 "a.emd" "/"
      "version_major" = some ⟨⟨TClass.uint, 4, false⟩, [1], [0, 0, 0, 0]⟩ := by
  decide

set_option maxRecDepth 100000 in
/-- C6: a container whose data node is stored as 64-bit floats.  `Private::readData` reports
failure, and `EmdFormat::read` returns success with the image untouched. -/
theorem read_unsupported_type_returns_success :
    (Private.readData "/data/tomography/data" emptyImage (openedOn doubleFile)).1 = false ∧
    (EmdFormat.read "a.emd" emptyImage (World.init [("a.emd", doubleFile)] noFail false)).1
      = true ∧
    (EmdFormat.read "a.emd" emptyImage (World.init [("a.emd", doubleFile)] noFail false)).2.1
      = emptyImage := by
  decide

set_option maxRecDepth 100000 in
/-- C8: `Private::readData` on a rank-1 dataset returns success after `SetDimensions` has read
three integers from a one-element vector; on a rank-4 dataset of sixteen elements it returns
success after `H5Dread` has stored sixteen elements in a buffer allocated for eight. -/
theorem readData_reads_past_dims :
    (openedOn rank1File).ub = false ∧
    (Private.readData "/data/tomography/data" emptyImage (openedOn rank1File)).1 = true ∧
    (Private.readData "/data/tomography/data" emptyImage (openedOn rank1File)).2.2.ub = true ∧
    (Private.readData "/data/tomography/data" emptyImage (openedOn rank4File)).1 = true ∧
    (Private.readData "/data/tomography/data" emptyImage (openedOn rank4File)).2.1.dimensions
      = (2, 2, 2) ∧
    (Private.readData "/data/tomography/data" emptyImage (openedOn rank4File)).2.2.ub = true := by
  decide

set_option maxRecDepth 100000 in
/-- C10: after `EmdFormat::read` has returned, on the success path and on the failure path
alike, `fileId` still holds the identifier of the container and the identifier is still
open. -/
theorem read_leaves_container_open :
    (EmdFormat.read "a.emd" emptyImage (World.init [("a.emd", tinyFile)] noFail false)).1
      = true ∧
    (EmdFormat.read "a.emd" emptyImage (World.init [("a.emd", tinyFile)] noFail false)).2.2.fileId
      ≠ H5I_INVALID_HID ∧
    lookupHandle
      (EmdFormat.read "a.emd" emptyImage (World.init [("a.emd", tinyFile)] noFail false)).2.2
      (EmdFormat.read "a.emd" emptyImage (World.init [("a.emd", tinyFile)] noFail false)).2.2.fileId
      = some (Handle.file "a.emd") ∧
    (EmdFormat.read "a.emd" emptyImage (World.init [("a.emd", groupsFile)] noFail false)).1
      = false ∧
    lookupHandle
      (EmdFormat.read "a.emd" emptyImage (World.init [("a.emd", groupsFile)] noFail false)).2.2
      (EmdFormat.read "a.emd" emptyImage (World.init [("a.emd", groupsFile)] noFail false)).2.2.fileId
      = some (Handle.file "a.emd") := by
  decide

/-! ## Byte swapping -/

theorem mapChunksAux_nil (f : List Nat → List Nat) (k fuel : Nat) :
    mapChunksAux f k fuel [] = [] := by
  cases fuel with
  | zero => rfl
  | succ n => unfold mapChunksAux; rw [if_pos rfl]

theorem mapChunksAux_reverse_length (k : Nat) (hk : 0 < k) :
    ∀ (fuel : Nat) (bs : List Nat), bs.length ≤ fuel →
      (mapChunksAux List.reverse k fuel bs).length = bs.length := by
  intro fuel
  induction fuel with
  | zero =>
    intro bs h
    have : bs = [] := List.length_eq_zero.mp (Nat.le_zero.mp h)
    subst this
    rfl
  | succ n ih =>
    intro bs h
    unfold mapChunksAux
    by_cases hb : bs = []
    · rw [if_pos hb, hb]
    · rw [if_neg hb, List.length_append, List.length_reverse, List.length_take,
        ih (bs.drop k) (by rw [List.length_drop]; omega), List.length_drop]
      omega

theorem mapChunksAux_reverse_involutive (k : Nat) (hk : 0 < k) :
    ∀ (fuel : Nat) (bs : List Nat) (fuel2 : Nat), bs.length ≤ fuel → bs.length ≤ fuel2 →
      mapChunksAux List.reverse k fuel2 (mapChunksAux List.reverse k fuel bs) = bs := by
  intro fuel
  induction fuel with
  | zero =>
    intro bs fuel2 h _
    have : bs = [] := List.length_eq_zero.mp (Nat.le_zero.mp h)
    subst this
    exact mapChunksAux_nil _ _ _
  | succ n ih =>
    intro bs fuel2 h h2
    by_cases hb : bs = []
    · subst hb
      rw [mapChunksAux_nil, mapChunksAux_nil]
    · have hpos : 0 < bs.length := List.length_pos.mpr hb
      obtain ⟨m, rfl⟩ : ∃ m, fuel2 = m + 1 := ⟨fuel2 - 1, by omega⟩
      have hstep : mapChunksAux List.reverse k (n + 1) bs
          = (bs.take k).reverse ++ mapChunksAux List.reverse k n (bs.drop k) := by
        conv_lhs => unfold mapChunksAux
        rw [if_neg hb]
      rw [hstep]
      have hne : (bs.take k).reverse ++ mapChunksAux List.reverse k n (bs.drop k) ≠ [] := by
        have hlenA : 0 < ((bs.take k).reverse).length := by
          rw [List.length_reverse, List.length_take]; omega
        intro hnil
        have h0 := congrArg List.length hnil
        rw [List.length_append, List.length_nil] at h0
        omega
      conv_lhs => unfold mapChunksAux
      rw [if_neg hne]
      by_cases hlen : k ≤ bs.length
      · have hA : ((bs.take k).reverse).length = k := by
          rw [List.length_reverse, List.length_take]; omega
        rw [List.take_left' hA, List.drop_left' hA, List.reverse_reverse,
          ih (bs.drop k) m (by rw [List.length_drop]; omega) (by rw [List.length_drop]; omega),
          List.take_append_drop]
      · have hlt : bs.length < k := Nat.lt_of_not_le hlen
        have htake : bs.take k = bs := List.take_of_length_le (Nat.le_of_lt hlt)
        have hdrop : bs.drop k = [] := List.drop_of_length_le (Nat.le_of_lt hlt)
        rw [htake, hdrop, mapChunksAux_nil, List.append_nil,
          List.take_of_length_le (by rw [List.length_reverse]; exact Nat.le_of_lt hlt),
          List.drop_of_length_le (by rw [List.length_reverse]; exact Nat.le_of_lt hlt),
          mapChunksAux_nil, List.append_nil, List.reverse_reverse]

theorem swapBytes_length (k : Nat) (hk : 0 < k) (bs : List Nat) :
    (swapBytes k bs).length = bs.length :=
  mapChunksAux_reverse_length k hk bs.length bs (Nat.le_refl _)

theorem swapBytes_swapBytes (k : Nat) (hk : 0 < k) (bs : List Nat) :
    swapBytes k (swapBytes k bs) = bs := by
  unfold swapBytes mapChunks
  exact mapChunksAux_reverse_involutive k hk bs.length bs _ (Nat.le_refl _)
    (by rw [mapChunksAux_reverse_length k hk _ _ (Nat.le_refl _)])

theorem hostSwap_hostSwap (b : Bool) (k : Nat) (hk : 0 < k) (bs : List Nat) :
    hostSwap b k (hostSwap b k bs) = bs := by
  cases b
  · rfl
  · exact swapBytes_swapBytes k hk bs

theorem hostSwap_length (b : Bool) (k : Nat) (hk : 0 < k) (bs : List Nat) :
    (hostSwap b k bs).length = bs.length := by
  cases b
  · rfl
  · exact swapBytes_length k hk bs

/-! ## Writing without I/O failures -/

@[simp] theorem parentPath_data : parentPath "/data" = "/" := by decide
@[simp] theorem parentPath_tomography : parentPath "/data/tomography" = "/data" := by decide
@[simp] theorem parentPath_tomography_data : parentPath "/data/tomography/data" = "/data/tomography" := by
  decide
@[simp] theorem parentPath_dim1 : parentPath "/data/tomography/dim1" = "/data/tomography" := by decide
@[simp] theorem parentPath_dim2 : parentPath "/data/tomography/dim2" = "/data/tomography" := by decide
@[simp] theorem parentPath_dim3 : parentPath "/data/tomography/dim3" = "/data/tomography" := by decide
@[simp] theorem joinPath_root : joinPath "/" "/" = "/" := by decide
@[simp] theorem joinPath_abs_data : joinPath "/" "/data" = "/data" := by decide
@[simp] theorem joinPath_abs_tomography : joinPath "/" "/data/tomography" = "/data/tomography" := by
  decide
@[simp] theorem joinPath_abs_dim1 : joinPath "/" "/data/tomography/dim1" = "/data/tomography/dim1" := by
  decide
@[simp] theorem joinPath_abs_dim2 : joinPath "/" "/data/tomography/dim2" = "/data/tomography/dim2" := by
  decide
@[simp] theorem joinPath_abs_dim3 : joinPath "/" "/data/tomography/dim3" = "/data/tomography/dim3" := by
  decide
@[simp] theorem joinPath_rel_data : joinPath "/data/tomography" "data" = "/data/tomography/data" := by
  decide
@[simp] theorem joinPath_rel_dim1 : joinPath "/data/tomography" "dim1" = "/data/tomography/dim1" := by
  decide
@[simp] theorem joinPath_rel_dim2 : joinPath "/data/tomography" "dim2" = "/data/tomography/dim2" := by
  decide
@[simp] theorem joinPath_rel_dim3 : joinPath "/data/tomography" "dim3" = "/data/tomography/dim3" := by
  decide

theorem convert_attr_int (b : Bool) (v : Int) (hv : v = 0 ∨ v = 1 ∨ v = 2) :
    convert ⟨TClass.sint, 4, b⟩ ⟨TClass.uint, 4, false⟩
      (List.take (memBytes ⟨TClass.sint, 4, b⟩ (elemCount [1]) (intBytes b v)) (intBytes b v))
      = some [v.toNat, 0, 0, 0] := by
  rcases hv with h | h | h <;> subst h <;> cases b <;> rfl

theorem attr_int_fits (b : Bool) (v : Int) (hv : v = 0 ∨ v = 1 ∨ v = 2) :
    decide ((intBytes b v).length < memBytes ⟨TClass.sint, 4, b⟩ (elemCount [1]) (intBytes b v))
      = false := by
  rcases hv with h | h | h <;> subst h <;> cases b <;> rfl

theorem setAttributeInt_ok (f : String) (c : H5File) (R : List (String × H5File))
    (H : List (Nat × Handle)) (N T : Nat) (fl : Nat → Bool) (b u : Bool) (n : Nat)
    (group name : String) (v : Int)
    (hfl : ∀ k, fl k = false)
    (hv : v = 0 ∨ v = 1 ∨ v = 2)
    (hH : assoc n H = some (Handle.file f))
    (hj : joinPath "/" group = group)
    (hg : assoc group c.objs = some Obj.group)
    (hfree : assoc (group, name) c.attrs = none) :
    Private.setAttributeInt group name v false ⟨(f, c) :: R, H, N, T, fl, b, u, dynId n⟩ =
      (true, ⟨(f, { c with attrs :=
            ((group, name), ⟨⟨TClass.uint, 4, false⟩, [1], [v.toNat, 0, 0, 0]⟩) :: c.attrs }) :: R,
        H, N + 3, T + 7, fl, b, u, dynId n⟩) := by
  have hcv := convert_attr_int b v hv
  have hfit := attr_int_fits b v hv
  simp [Private.setAttributeInt, Private.setAttribute, H5Gopen, H5Screate_simple, H5Acreate2,
    H5Awrite, H5Aclose, H5Sclose, H5Gclose, closeHandle, locate, objectOf, World.alloc,
    World.step, World.release, World.putFile, assoc, unassoc, upsert, typeOf, hfl, hH, hj, hg, hfree,
    hcv, hfit, predefType, H5T_IEEE_F32LE, H5T_STD_U32LE, H5T_STD_U16LE, H5T_STD_U8LE,
    H5T_NATIVE_FLOAT, H5T_NATIVE_UINT, H5T_NATIVE_USHORT, H5T_NATIVE_UCHAR, H5T_NATIVE_INT]

theorem createGroup_ok (f : String) (c : H5File) (R : List (String × H5File))
    (H : List (Nat × Handle)) (N T : Nat) (fl : Nat → Bool) (b u : Bool) (n : Nat)
    (p : String)
    (hfl : ∀ k, fl k = false)
    (hH : assoc n H = some (Handle.file f))
    (hj : joinPath "/" p = p)
    (hfree : assoc p c.objs = none)
    (hpar : assoc (parentPath p) c.objs = some Obj.group) :
    Private.createGroup p ⟨(f, c) :: R, H, N, T, fl, b, u, dynId n⟩ =
      (dynId N, ⟨(f, { c with objs := (p, Obj.group) :: c.objs }) :: R,
        (N, Handle.group f p) :: H, N + 1, T + 1, fl, b, u, dynId n⟩) := by
  simp [Private.createGroup, H5Gcreate, locate, World.alloc, World.step, World.putFile, assoc,
    unassoc, upsert, hfl, hH, hj, hfree, hpar]

theorem setAttributeString_ok (f : String) (c : H5File) (R : List (String × H5File))
    (H : List (Nat × Handle)) (N T : Nat) (fl : Nat → Bool) (b u : Bool) (n : Nat)
    (group name value : String)
    (hfl : ∀ k, fl k = false)
    (hH : assoc n H = some (Handle.file f))
    (hj : joinPath "/" group = group)
    (hd : isDatasetAt c group = true)
    (hfree : assoc (group, name) c.attrs = none) :
    Private.setAttributeString group name value true ⟨(f, c) :: R, H, N, T, fl, b, u, dynId n⟩ =
      (true, ⟨(f, { c with attrs :=
            ((group, name), ⟨varString, [1], strBytes value⟩) :: c.attrs }) :: R,
        (N + 2, Handle.dtype varString) :: H, N + 4, T + 9, fl, b, u, dynId n⟩) := by
  unfold isDatasetAt at hd
  cases ho : assoc group c.objs with
  | none => rw [ho] at hd; cases hd
  | some o =>
    cases o with
    | group => rw [ho] at hd; cases hd
    | dataset t d r =>
      simp [Private.setAttributeString, H5Dopen, H5Screate_simple, H5Acreate2, H5Tcopy,
        H5Tset_size, H5Awrite, H5Aclose, H5Sclose, H5Dclose, closeHandle, locate, objectOf,
        World.alloc, World.step, World.release, World.putFile, assoc, unassoc, reassoc, upsert,
        hfl, hH, hj, ho, hfree, convert, memBytes, varString, Nat.add_assoc]

theorem convert_coord (b : Bool) :
    convert ⟨TClass.float, 4, b⟩ ⟨TClass.float, 4, false⟩
      (List.take (memBytes ⟨TClass.float, 4, b⟩ (elemCount [2]) (floatBytes b coordBits))
        (floatBytes b coordBits))
      = some [0, 0, 0, 0, 0, 0, 128, 63] := by
  cases b <;> rfl

theorem coord_fits (b : Bool) :
    decide ((floatBytes b coordBits).length
      < memBytes ⟨TClass.float, 4, b⟩ (elemCount [2]) (floatBytes b coordBits)) = false := by
  cases b <;> rfl

theorem toHsize_two : toHsize 2 = 2 := by decide

theorem coordBits_eq : List.map (fun i : Nat => floatOfInt (i : Int)) (List.range 2) = coordBits := by
  decide

theorem writeDataFloats_ok (f : String) (c : H5File) (R : List (String × H5File))
    (H : List (Nat × Handle)) (N T : Nat) (fl : Nat → Bool) (b u : Bool) (n : Nat)
    (group name : String)
    (hfl : ∀ k, fl k = false)
    (hH : assoc n H = some (Handle.file f))
    (hj : joinPath "/" group = group)
    (hg : assoc group c.objs = some Obj.group)
    (hfree : assoc (joinPath group name) c.objs = none)
    (hpar : assoc (parentPath (joinPath group name)) c.objs = some Obj.group) :
    Private.writeDataFloats group name [2] coordBits ⟨(f, c) :: R, H, N, T, fl, b, u, dynId n⟩ =
      (true, ⟨(f, { c with objs :=
            (joinPath group name,
              Obj.dataset ⟨TClass.float, 4, false⟩ [2] [0, 0, 0, 0, 0, 0, 128, 63]) :: c.objs })
          :: R,
        H, N + 3, T + 7, fl, b, u, dynId n⟩) := by
  have hcv := convert_coord b
  have hfit := coord_fits b
  simp [Private.writeDataFloats, H5Gopen, H5Screate_simple, H5Dcreate, H5Dwrite, H5Dclose,
    H5Sclose, H5Gclose, closeHandle, locate, objectOf, World.alloc, World.step, World.release,
    World.putFile, assoc, unassoc, upsert, hfl, hH, hj, hg, hfree, hpar, hcv, hfit,
    toHsize_two, Nat.add_assoc]

theorem writeData_ok (f : String) (c : H5File) (R : List (String × H5File))
    (H : List (Nat × Handle)) (N T : Nat) (fl : Nat → Bool) (b u : Bool) (n : Nat)
    (group name : String) (image : vtkImageData)
    (hfl : ∀ k, fl k = false)
    (htag : image.scalarType ∈ supportedTags)
    (hH : assoc n H = some (Handle.file f))
    (hj : joinPath "/" group = group)
    (hg : assoc group c.objs = some Obj.group)
    (hfree : assoc (joinPath group name) c.objs = none)
    (hpar : assoc (parentPath (joinPath group name)) c.objs = some Obj.group) :
    Private.writeData group name image ⟨(f, c) :: R, H, N, T, fl, b, u, dynId n⟩ =
      (true, ⟨(f, { c with objs :=
            (joinPath group name,
              Obj.dataset (storedTypeOf image.scalarType) (storedDims image)
                (hostSwap b (storedTypeOf image.scalarType).size
                  (image.scalars.take
                    (elemCount (storedDims image) * (storedTypeOf image.scalarType).size))))
              :: c.objs }) :: R,
        H, N + 3, T + 7, fl, b,
        u || decide (image.scalars.length
          < elemCount (storedDims image) * (storedTypeOf image.scalarType).size),
        dynId n⟩) := by
  have hm1 : VTK_FLOAT ∈ vtkTemplateMacroTypes := by decide
  have hm2 : VTK_UNSIGNED_INT ∈ vtkTemplateMacroTypes := by decide
  have hm3 : VTK_UNSIGNED_SHORT ∈ vtkTemplateMacroTypes := by decide
  have hm4 : VTK_UNSIGNED_CHAR ∈ vtkTemplateMacroTypes := by decide
  have hw1 : writeDataTypes VTK_FLOAT true = (H5T_IEEE_F32LE, H5T_NATIVE_FLOAT, true) := rfl
  have hw2 : writeDataTypes VTK_UNSIGNED_INT true = (H5T_STD_U32LE, H5T_NATIVE_UINT, true) := rfl
  have hw3 : writeDataTypes VTK_UNSIGNED_SHORT true
      = (H5T_STD_U16LE, H5T_NATIVE_USHORT, true) := rfl
  have hw4 : writeDataTypes VTK_UNSIGNED_CHAR true
      = (H5T_STD_U8LE, H5T_NATIVE_UCHAR, true) := rfl
  have hs1 : storedTypeOf VTK_FLOAT = ⟨TClass.float, 4, false⟩ := rfl
  have hs2 : storedTypeOf VTK_UNSIGNED_INT = ⟨TClass.uint, 4, false⟩ := rfl
  have hs3 : storedTypeOf VTK_UNSIGNED_SHORT = ⟨TClass.uint, 2, false⟩ := rfl
  have hs4 : storedTypeOf VTK_UNSIGNED_CHAR = ⟨TClass.uint, 1, false⟩ := rfl
  simp only [supportedTags, List.mem_cons, List.mem_singleton, List.not_mem_nil, or_false]
    at htag
  rcases htag with h | h | h | h <;> cases b <;>
    simp [Private.writeData, writeVolume, h, hm1, hm2, hm3, hm4, hw1, hw2, hw3, hw4, hs1, hs2,
      hs3, hs4, vtkImageData.GetDimensions, storedDims, hostSwap,
      H5Gopen, H5Screate_simple, H5Dcreate, H5Dwrite, H5Dclose,
      H5Sclose, H5Gclose, closeHandle, locate, objectOf, World.alloc, World.step, World.release,
      World.putFile, assoc, unassoc, upsert, hfl, hH, hj, hg, hfree, hpar, convert, memBytes,
      Nat.add_assoc]

/-! ## Reading without I/O failures -/

theorem convert_uint_attr (b : Bool) (a : Attr)
    (ha : a = uintAttr 0 ∨ a = uintAttr 1 ∨ a = uintAttr 2) :
    ∃ bytes, convert a.ty ⟨TClass.sint, 4, b⟩ a.raw = some bytes ∧ bytes.length = 4 := by
  rcases ha with h | h | h <;> subst h <;> cases b <;> exact ⟨_, rfl, rfl⟩

theorem intBytes_length (b : Bool) (v : Int) : (intBytes b v).length = 4 := by
  cases b <;> rfl

theorem attributeInt_ok (f : String) (c : H5File) (R : List (String × H5File))
    (H : List (Nat × Handle)) (N T : Nat) (fl : Nat → Bool) (b u : Bool) (n : Nat)
    (group name : String) (v0 : Int)
    (hfl : ∀ k, fl k = false)
    (hH : assoc n H = some (Handle.file f))
    (hj : joinPath "/" group = group)
    (hobj : assoc group c.objs = some Obj.group)
    (hattr : isSmallUint (assoc (group, name) c.attrs) = true) :
    (Private.attributeInt group name v0 ⟨(f, c) :: R, H, N, T, fl, b, u, dynId n⟩).2.2 =
      ⟨(f, c) :: R,
        (N + 1, Handle.dtype ⟨TClass.uint, 4, false⟩) :: (N, Handle.attr f group name) :: H,
        N + 2, T + 4, fl, b, u, dynId n⟩ := by
  cases ho : assoc (group, name) c.attrs with
  | none => rw [ho] at hattr; cases hattr
  | some a =>
    have ha : a = uintAttr 0 ∨ a = uintAttr 1 ∨ a = uintAttr 2 := by
      rw [ho] at hattr
      simpa [isSmallUint, or_assoc] using hattr
    obtain ⟨bytes, hcv, hlen⟩ := convert_uint_attr b a ha
    have hty : a.ty = ⟨TClass.uint, 4, false⟩ := by
      rcases ha with h | h | h <;> subst h <;> rfl
    have hib := intBytes_length b v0
    rw [hty] at hcv
    simp [Private.attributeInt, Private.attribute, H5Aexists_by_name, H5Aopen_by_name,
      H5Aget_type, H5Aread, H5Tequal, locate, World.alloc, World.step, assoc, hfl, hH, hj, hobj,
      ho, hcv, hlen, hty, hib, Nat.add_assoc]

theorem readData_ok (f : String) (c : H5File) (R : List (String × H5File))
    (H : List (Nat × Handle)) (N T : Nat) (fl : Nat → Bool) (b u : Bool) (n : Nat)
    (path : String) (data : vtkImageData) (tag : Int) (d0 d1 d2 : Nat) (raw : List Nat)
    (hfl : ∀ k, fl k = false)
    (htag : tag ∈ supportedTags)
    (hH : assoc n H = some (Handle.file f))
    (hj : joinPath "/" path = path)
    (hd : assoc path c.objs = some (Obj.dataset (storedTypeOf tag) [d0, d1, d2] raw)) :
    Private.readData path data ⟨(f, c) :: R, H, N, T, fl, b, u, dynId n⟩ =
      (true,
        { dimensions := (hsizeToInt d0, hsizeToInt d1, hsizeToInt d2),
          scalarType := tag,
          scalars := overwrite
            (List.replicate
              (vtkImageData.numberOfPoints
                  ⟨(hsizeToInt d0, hsizeToInt d1, hsizeToInt d2), data.scalarType, data.scalars⟩
                * 1 * vtkScalarSize tag) 0)
            (hostSwap b (storedTypeOf tag).size raw) },
        ⟨(f, c) :: R, H, N + 3, T + 9, fl, b,
          u || decide ((List.replicate
              (vtkImageData.numberOfPoints
                  ⟨(hsizeToInt d0, hsizeToInt d1, hsizeToInt d2), data.scalarType, data.scalars⟩
                * 1 * vtkScalarSize tag) 0).length
            < (hostSwap b (storedTypeOf tag).size raw).length),
          dynId n⟩) := by
  have hs1 : storedTypeOf VTK_FLOAT = ⟨TClass.float, 4, false⟩ := rfl
  have hs2 : storedTypeOf VTK_UNSIGNED_INT = ⟨TClass.uint, 4, false⟩ := rfl
  have hs3 : storedTypeOf VTK_UNSIGNED_SHORT = ⟨TClass.uint, 2, false⟩ := rfl
  have hs4 : storedTypeOf VTK_UNSIGNED_CHAR = ⟨TClass.uint, 1, false⟩ := rfl
  simp only [supportedTags, List.mem_cons, List.mem_singleton, List.not_mem_nil, or_false]
    at htag
  rcases htag with h | h | h | h <;> subst h <;> simp only [hs1, hs2, hs3, hs4] at hd <;>
    cases b <;>
    simp [Private.readData, readDataTypes, H5Tequal, H5Dopen, H5Dget_space, H5Dget_type,
      H5Sget_simple_extent_ndims, H5Sget_simple_extent_dims, H5Tclose, H5Dread, H5Sclose,
      H5Dclose, closeHandle, locate, World.alloc, World.step, World.release, assoc, unassoc,
      hfl, hH, hj, hd, hs1, hs2, hs3, hs4, convert, hostSwap, vtkImageData.SetDimensions,
      vtkImageData.AllocateScalars, Nat.add_assoc]

attribute [irreducible] H5Fcreate H5Fopen H5Fclose H5Gcreate H5Gopen H5Gclose H5Dcreate H5Dopen
  H5Dclose H5Dwrite H5Dread H5Dget_space H5Dget_type H5Screate_simple H5Sclose
  H5Sget_simple_extent_ndims H5Sget_simple_extent_dims H5Tcopy H5Tset_size H5Tclose H5Acreate2
  H5Awrite H5Aread H5Aclose H5Aexists_by_name H5Aopen_by_name H5Aget_type H5Oexists_by_name
  H5Oget_info_by_name Private.setAttribute Private.setAttributeInt Private.setAttributeString
  Private.createGroup Private.writeData Private.writeDataFloats Private.attribute
  Private.attributeInt Private.readData writeVolume

set_option maxHeartbeats 4000000 in
set_option maxRecDepth 100000 in
theorem write_ok (F : List (String × H5File)) (H : List (Nat × Handle))
    (N T : Nat) (fl : Nat → Bool) (b u : Bool) (fid0 : hid_t) (fileName : String)
    (image : vtkImageData)
    (hfl : ∀ k, fl k = false) (htag : image.scalarType ∈ supportedTags) :
    EmdFormat.write fileName image ⟨F, H, N, T, fl, b, u, fid0⟩ =
      (true, ⟨(fileName, writtenFile b image) :: unassoc fileName F, leakedTypes N ++ H,
        N + 49, T + 111, fl, b,
        u || decide (image.scalars.length
          < elemCount (storedDims image) * (storedTypeOf image.scalarType).size),
        H5I_INVALID_HID⟩) := by
  have e1 : H5Fcreate fileName ⟨F, H, N, T, fl, b, u, fid0⟩ =
      (dynId N, ⟨(fileName, emptyFile) :: unassoc fileName F, (N, Handle.file fileName) :: H,
        N + 1, T + 1, fl, b, u, fid0⟩) := by
    simp [H5Fcreate, World.alloc, World.putFile, upsert, hfl]
  have e2 : H5Gopen (dynId N) "/" ⟨(fileName, emptyFile) :: unassoc fileName F,
        (N, Handle.file fileName) :: H, N + 1, T + 1, fl, b, u, dynId N⟩ =
      (dynId (N + 1), ⟨(fileName, emptyFile) :: unassoc fileName F,
        (N + 1, Handle.group fileName "/") :: (N, Handle.file fileName) :: H,
        N + 2, T + 2, fl, b, u, dynId N⟩) := by
    simp [H5Gopen, locate, World.alloc, assoc, emptyFile, hfl, joinPath_root]
  unfold EmdFormat.write
  simp only [e1, e2, coordBits_eq]
  rw [setAttributeInt_ok]
  rotate_left
  iterate 6 (focus first | exact hfl | exact htag | decide |
    simp [assoc, emptyFile, isDatasetAt, Nat.add_assoc])
  dsimp only
  rw [setAttributeInt_ok]
  rotate_left
  iterate 6 (focus first | exact hfl | exact htag | decide |
    simp [assoc, emptyFile, isDatasetAt, Nat.add_assoc])
  dsimp only
  rw [createGroup_ok]
  rotate_left
  iterate 5 (focus first | exact hfl | exact htag | decide |
    simp [assoc, emptyFile, isDatasetAt, Nat.add_assoc])
  dsimp only
  rw [createGroup_ok]
  rotate_left
  iterate 5 (focus first | exact hfl | exact htag | decide |
    simp [assoc, emptyFile, isDatasetAt, Nat.add_assoc])
  dsimp only
  rw [setAttributeInt_ok]
  rotate_left
  iterate 6 (focus first | exact hfl | exact htag | decide |
    simp [assoc, emptyFile, isDatasetAt, Nat.add_assoc])
  dsimp only
  rw [writeData_ok]
  rotate_left
  iterate 7 (focus first | exact hfl | exact htag | decide |
    simp [assoc, emptyFile, isDatasetAt, Nat.add_assoc])
  dsimp only
  rw [writeDataFloats_ok]
  rotate_left
  iterate 6 (focus first | exact hfl | exact htag | decide |
    simp [assoc, emptyFile, isDatasetAt, Nat.add_assoc])
  dsimp only
  rw [setAttributeString_ok]
  rotate_left
  iterate 5 (focus first | exact hfl | exact htag | decide |
    simp [assoc, emptyFile, isDatasetAt, Nat.add_assoc])
  dsimp only
  rw [setAttributeString_ok]
  rotate_left
  iterate 5 (focus first | exact hfl | exact htag | decide |
    simp [assoc, emptyFile, isDatasetAt, Nat.add_assoc])
  dsimp only
  rw [writeDataFloats_ok]
  rotate_left
  iterate 6 (focus first | exact hfl | exact htag | decide |
    simp [assoc, emptyFile, isDatasetAt, Nat.add_assoc])
  dsimp only
  rw [setAttributeString_ok]
  rotate_left
  iterate 5 (focus first | exact hfl | exact htag | decide |
    simp [assoc, emptyFile, isDatasetAt, Nat.add_assoc])
  dsimp only
  rw [setAttributeString_ok]
  rotate_left
  iterate 5 (focus first | exact hfl | exact htag | decide |
    simp [assoc, emptyFile, isDatasetAt, Nat.add_assoc])
  dsimp only
  rw [writeDataFloats_ok]
  rotate_left
  iterate 6 (focus first | exact hfl | exact htag | decide |
    simp [assoc, emptyFile, isDatasetAt, Nat.add_assoc])
  dsimp only
  rw [setAttributeString_ok]
  rotate_left
  iterate 5 (focus first | exact hfl | exact htag | decide |
    simp [assoc, emptyFile, isDatasetAt, Nat.add_assoc])
  dsimp only
  rw [setAttributeString_ok]
  rotate_left
  iterate 5 (focus first | exact hfl | exact htag | decide |
    simp [assoc, emptyFile, isDatasetAt, Nat.add_assoc])
  dsimp only
  simp [H5Gclose, H5Fclose, closeHandle, World.release, World.step, assoc, unassoc, hfl,
    Nat.add_assoc, joinPath_rel_data, joinPath_rel_dim1, joinPath_rel_dim2, joinPath_rel_dim3,
    writtenFile, leakedTypes, coordDataset, uintAttr, stringAttr, dataNode, emptyFile]

theorem H5Oexists_by_name_snd (loc : hid_t) (g : String) (w : World) :
    (H5Oexists_by_name loc g w).2 = w.step := by
  unfold H5Oexists_by_name
  repeat' split
  all_goals rfl

theorem H5Oget_info_by_name_dataset (f : String) (c : H5File) (R : List (String × H5File))
    (H : List (Nat × Handle)) (N T : Nat) (fl : Nat → Bool) (b u : Bool) (n : Nat)
    (path : String) (lapl : hid_t)
    (hfl : ∀ k, fl k = false)
    (hH : assoc n H = some (Handle.file f))
    (hj : joinPath "/" path = path)
    (hd : isDatasetAt c path = true) :
    H5Oget_info_by_name (dynId n) path lapl ⟨(f, c) :: R, H, N, T, fl, b, u, dynId n⟩ =
      (0, some H5O_type_t.H5O_TYPE_DATASET, ⟨(f, c) :: R, H, N, T + 1, fl, b, u, dynId n⟩) := by
  unfold isDatasetAt at hd
  cases ho : assoc path c.objs with
  | none => rw [ho] at hd; cases hd
  | some o =>
    cases o with
    | group => rw [ho] at hd; cases hd
    | dataset t d r =>
      simp [H5Oget_info_by_name, locate, World.step, assoc, hfl, hH, hj, ho]

/-- The image that a read of the container written for `image` hands back. -/
theorem read_written (R : List (String × H5File)) (H : List (Nat × Handle))
    (N T : Nat) (fl : Nat → Bool) (b u : Bool) (fid0 : hid_t) (fileName : String)
    (image img0 : vtkImageData)
    (hfl : ∀ k, fl k = false) (htag : image.scalarType ∈ supportedTags) :
    (EmdFormat.read fileName img0
        ⟨(fileName, writtenFile b image) :: R, H, N, T, fl, b, u, fid0⟩).1 = true ∧
    (EmdFormat.read fileName img0
        ⟨(fileName, writtenFile b image) :: R, H, N, T, fl, b, u, fid0⟩).2.1 =
      { dimensions := (hsizeToInt (toHsize image.dimensions.1),
          hsizeToInt (toHsize image.dimensions.2.1), hsizeToInt (toHsize image.dimensions.2.2)),
        scalarType := image.scalarType,
        scalars := overwrite
          (List.replicate
            (vtkImageData.numberOfPoints
                ⟨(hsizeToInt (toHsize image.dimensions.1),
                  hsizeToInt (toHsize image.dimensions.2.1),
                  hsizeToInt (toHsize image.dimensions.2.2)), img0.scalarType, img0.scalars⟩
              * 1 * vtkScalarSize image.scalarType) 0)
          (hostSwap b (storedTypeOf image.scalarType).size
            (hostSwap b (storedTypeOf image.scalarType).size
              (image.scalars.take
                (elemCount (storedDims image) * (storedTypeOf image.scalarType).size)))) } := by
  have e1 : H5Fopen fileName ⟨(fileName, writtenFile b image) :: R, H, N, T, fl, b, u, fid0⟩ =
      (dynId N, ⟨(fileName, writtenFile b image) :: R, (N, Handle.file fileName) :: H,
        N + 1, T + 1, fl, b, u, fid0⟩) := by
    simp [H5Fopen, World.alloc, assoc, hfl]
  unfold EmdFormat.read
  simp only [e1]
  rw [attributeInt_ok]
  rotate_left
  iterate 5 (focus first | exact hfl | decide |
    simp [assoc, writtenFile, isSmallUint])
  try dsimp only
  rw [attributeInt_ok]
  rotate_left
  iterate 5 (focus first | exact hfl | decide |
    simp [assoc, writtenFile, isSmallUint, Nat.add_assoc])
  try dsimp only
  rw [H5Oexists_by_name_snd]
  dsimp only [World.step]
  rw [H5Oget_info_by_name_dataset]
  rotate_left
  iterate 4 (focus first | exact hfl | decide |
    simp [assoc, writtenFile, isDatasetAt, dataNode, Nat.add_assoc])
  try dsimp only
  rw [readData_ok _ _ _ _ _ _ _ _ _ _ _ _ image.scalarType (toHsize image.dimensions.1)
    (toHsize image.dimensions.2.1) (toHsize image.dimensions.2.2)
    (hostSwap b (storedTypeOf image.scalarType).size
      (image.scalars.take (elemCount (storedDims image) * (storedTypeOf image.scalarType).size)))]
  rotate_left
  iterate 5 (focus first | exact hfl | exact htag | decide |
    simp [assoc, writtenFile, isDatasetAt, dataNode, storedDims, Nat.add_assoc])
  rw [if_pos (by decide)]
  exact ⟨rfl, rfl⟩

/-! ## The schema and the round trip -/

theorem toHsize_of_range (x : Int) (h0 : 0 ≤ x) (h1 : x < 2 ^ 31) : toHsize x = x.toNat := by
  unfold toHsize
  have h2 : x % 2 ^ 64 = x := Int.emod_eq_of_lt h0 (by omega)
  rw [h2]

theorem hsizeToInt_toHsize (x : Int) (h0 : 0 ≤ x) (h1 : x < 2 ^ 31) :
    hsizeToInt (toHsize x) = x := by
  rw [toHsize_of_range x h0 h1]
  unfold hsizeToInt
  have h3 : x.toNat % 2 ^ 32 = x.toNat := Nat.mod_eq_of_lt (by omega)
  have h4 : x.toNat < 2 ^ 31 := by omega
  rw [h3, if_pos h4]
  omega

theorem vtkScalarSize_supported (tag : Int) (h : tag ∈ supportedTags) :
    vtkScalarSize tag = (storedTypeOf tag).size ∧ 0 < (storedTypeOf tag).size := by
  simp only [supportedTags, List.mem_cons, List.mem_singleton, List.not_mem_nil, or_false] at h
  rcases h with h | h | h | h <;> subst h <;> exact ⟨rfl, by decide⟩

theorem elemCount_storedDims (V : vtkImageData)
    (hx : 0 < V.dimensions.1 ∧ V.dimensions.1 < 2 ^ 31)
    (hy : 0 < V.dimensions.2.1 ∧ V.dimensions.2.1 < 2 ^ 31)
    (hz : 0 < V.dimensions.2.2 ∧ V.dimensions.2.2 < 2 ^ 31) :
    elemCount (storedDims V) = V.numberOfPoints := by
  unfold storedDims elemCount vtkImageData.numberOfPoints
  rw [toHsize_of_range _ (Int.le_of_lt hx.1) hx.2, toHsize_of_range _ (Int.le_of_lt hy.1) hy.2,
    toHsize_of_range _ (Int.le_of_lt hz.1) hz.2]
  rw [if_neg (by omega)]
  simp only [List.foldr_cons, List.foldr_nil, Nat.mul_one]
  obtain ⟨a, ha⟩ := Int.eq_ofNat_of_zero_le (Int.le_of_lt hx.1)
  obtain ⟨b, hb⟩ := Int.eq_ofNat_of_zero_le (Int.le_of_lt hy.1)
  obtain ⟨c, hc⟩ := Int.eq_ofNat_of_zero_le (Int.le_of_lt hz.1)
  rw [ha, hb, hc]
  have e : ((a : Int) * (b : Int) * (c : Int)) = ((a * b * c : Nat) : Int) := by push_cast; rfl
  rw [e, Int.toNat_ofNat, Int.toNat_ofNat, Int.toNat_ofNat, Int.toNat_ofNat, Nat.mul_assoc]

theorem overwrite_replicate (bytes : List Nat) (L : Nat) (h : bytes.length = L) :
    overwrite (List.replicate L 0) bytes = bytes := by
  unfold overwrite
  rw [List.drop_of_length_le (by rw [List.length_replicate]; omega), List.append_nil]

/-- C3: after an `EmdFormat::write` of a volume of a supported element type in which no library
call fails, the container holds the unsigned 32-bit attributes `version_major = 0` and
`version_minor = 2` on the root group, the groups `/data` and `/data/tomography`, the unsigned
32-bit attribute `emd_group_type = 1` on `/data/tomography`, a dataset
`/data/tomography/data` of rank 3, and the datasets `dim1`, `dim2`, `dim3` of extent 2 whose
bytes are the little-endian 32-bit floats 0.0 (`00 00 00 00`) and 1.0 (`00 00 80 3f`), each
with a variable-length string attribute `units` holding the characters of `[n_m]`
(91, 110, 95, 109, 93) and a `name` attribute holding `x` (120), `y` (121), `z` (122). -/
theorem write_lays_down_schema (w : World) (fileName : String) (image : vtkImageData)
    (hfl : ∀ k, w.fail k = false) (htag : image.scalarType ∈ supportedTags) :
    attrAt (EmdFormat.write fileName image w).2 fileName "/" "version_major"
      = some ⟨⟨TClass.uint, 4, false⟩, [1], [0, 0, 0, 0]⟩ ∧
    attrAt (EmdFormat.write fileName image w).2 fileName "/" "version_minor"
      = some ⟨⟨TClass.uint, 4, false⟩, [1], [2, 0, 0, 0]⟩ ∧
    nodeAt (EmdFormat.write fileName image w).2 fileName "/data" = some Obj.group ∧
    nodeAt (EmdFormat.write fileName image w).2 fileName "/data/tomography" = some Obj.group ∧
    attrAt (EmdFormat.write fileName image w).2 fileName "/data/tomography" "emd_group_type"
      = some ⟨⟨TClass.uint, 4, false⟩, [1], [1, 0, 0, 0]⟩ ∧
    (∃ ty dims raw, nodeAt (EmdFormat.write fileName image w).2 fileName "/data/tomography/data"
      = some (Obj.dataset ty dims raw) ∧ dims.length = 3) ∧
    (∀ p ∈ ["/data/tomography/dim1", "/data/tomography/dim2", "/data/tomography/dim3"],
      nodeAt (EmdFormat.write fileName image w).2 fileName p
        = some (Obj.dataset ⟨TClass.float, 4, false⟩ [2] [0, 0, 0, 0, 0, 0, 128, 63]) ∧
      attrAt (EmdFormat.write fileName image w).2 fileName p "units"
        = some ⟨⟨TClass.string, H5T_VARIABLE, false⟩, [1], [91, 110, 95, 109, 93]⟩) ∧
    attrAt (EmdFormat.write fileName image w).2 fileName "/data/tomography/dim1" "name"
      = some ⟨⟨TClass.string, H5T_VARIABLE, false⟩, [1], [120]⟩ ∧
    attrAt (EmdFormat.write fileName image w).2 fileName "/data/tomography/dim2" "name"
      = some ⟨⟨TClass.string, H5T_VARIABLE, false⟩, [1], [121]⟩ ∧
    attrAt (EmdFormat.write fileName image w).2 fileName "/data/tomography/dim3" "name"
      = some ⟨⟨TClass.string, H5T_VARIABLE, false⟩, [1], [122]⟩ := by
  obtain ⟨F, H, N, T, fl, b, u, fid0⟩ := w
  have hu : strBytes "[n_m]" = [91, 110, 95, 109, 93] := by decide
  have hsx : strBytes "x" = [120] := by decide
  have hsy : strBytes "y" = [121] := by decide
  have hsz : strBytes "z" = [122] := by decide
  rw [write_ok F H N T fl b u fid0 fileName image hfl htag]
  simp [attrAt, nodeAt, assoc, writtenFile, dataNode, storedDims, stringAttr, uintAttr,
    coordDataset, varString, hu, hsx, hsy, hsz]
  exact ⟨_, _, ⟨rfl, rfl⟩, rfl⟩

theorem write_lays_down_schema_witness :
    (∀ k, (World.init [] noFail false).fail k = false) ∧
    volume444.scalarType ∈ supportedTags ∧
    attrAt (EmdFormat.write "a.emd" volume444 (World.init [] noFail false)).2 "a.emd"
      "/data/tomography/dim1" "name"
      = some ⟨⟨TClass.string, H5T_VARIABLE, false⟩, [1], [120]⟩ :=
  ⟨fun _ => rfl, by decide,
    (write_lays_down_schema (World.init [] noFail false) "a.emd" volume444 (fun _ => rfl)
      (by decide)).2.2.2.2.2.2.2.1⟩

/-- C1: round trip.  On a host of either byte order, for a volume `V` of a supported element
type with positive extents (each an `int`) and a scalar buffer of exactly one element per
point, when no library call fails, `EmdFormat::write` succeeds and `EmdFormat::read` of the
container it wrote succeeds and hands back an image with the extents, the element type and the
bytes of `V`. -/
theorem write_read_roundtrip (w : World) (fileName : String) (V img0 : vtkImageData)
    (hfl : ∀ k, w.fail k = false)
    (htag : V.scalarType ∈ supportedTags)
    (hx : 0 < V.dimensions.1 ∧ V.dimensions.1 < 2 ^ 31)
    (hy : 0 < V.dimensions.2.1 ∧ V.dimensions.2.1 < 2 ^ 31)
    (hz : 0 < V.dimensions.2.2 ∧ V.dimensions.2.2 < 2 ^ 31)
    (hbuf : V.scalars.length = V.numberOfPoints * vtkScalarSize V.scalarType) :
    (EmdFormat.write fileName V w).1 = true ∧
    (EmdFormat.read fileName img0 (EmdFormat.write fileName V w).2).1 = true ∧
    (EmdFormat.read fileName img0 (EmdFormat.write fileName V w).2).2.1 = V := by
  obtain ⟨F, H, N, T, fl, b, u, fid0⟩ := w
  obtain ⟨hsz, hpos⟩ := vtkScalarSize_supported V.scalarType htag
  rw [write_ok F H N T fl b u fid0 fileName V hfl htag]
  obtain ⟨h1, h2⟩ := read_written (unassoc fileName F) (leakedTypes N ++ H) (N + 49) (T + 111)
    fl b (u || decide (V.scalars.length
      < elemCount (storedDims V) * (storedTypeOf V.scalarType).size)) H5I_INVALID_HID fileName
    V img0 hfl htag
  refine ⟨rfl, h1, ?_⟩
  rw [h2]
  have hdx := hsizeToInt_toHsize _ (Int.le_of_lt hx.1) hx.2
  have hdy := hsizeToInt_toHsize _ (Int.le_of_lt hy.1) hy.2
  have hdz := hsizeToInt_toHsize _ (Int.le_of_lt hz.1) hz.2
  have hcount := elemCount_storedDims V hx hy hz
  rw [hdx, hdy, hdz, hostSwap_hostSwap b _ hpos, hcount, ← hsz, ← hbuf,
    List.take_of_length_le (Nat.le_refl _)]
  have hpts : vtkImageData.numberOfPoints
      ⟨(V.dimensions.1, V.dimensions.2.1, V.dimensions.2.2), img0.scalarType, img0.scalars⟩
      = V.numberOfPoints := rfl
  rw [hpts, overwrite_replicate _ _ (by rw [Nat.mul_one]; exact hbuf)]

theorem write_read_roundtrip_witness :
    (∀ k, (World.init [] noFail false).fail k = false) ∧
    volume444.scalarType ∈ supportedTags ∧
    (0 < volume444.dimensions.1 ∧ volume444.dimensions.1 < 2 ^ 31) ∧
    (0 < volume444.dimensions.2.1 ∧ volume444.dimensions.2.1 < 2 ^ 31) ∧
    (0 < volume444.dimensions.2.2 ∧ volume444.dimensions.2.2 < 2 ^ 31) ∧
    volume444.scalars.length = volume444.numberOfPoints * vtkScalarSize volume444.scalarType ∧
    (EmdFormat.write "a.emd" volume444 (World.init [] noFail false)).1 = true ∧
    (EmdFormat.read "a.emd" emptyImage
      (EmdFormat.write "a.emd" volume444 (World.init [] noFail false)).2).1 = true ∧
    (EmdFormat.read "a.emd" emptyImage
      (EmdFormat.write "a.emd" volume444 (World.init [] noFail false)).2).2.1 = volume444 :=
  ⟨fun _ => rfl, by decide, by decide, by decide, by decide, by decide,
    write_read_roundtrip (World.init [] noFail false) "a.emd" volume444 emptyImage
      (fun _ => rfl) (by decide) (by decide) (by decide) (by decide) (by decide)⟩

end tomviz
